import Mathlib

/-!
Verification development for the TsFlower type/declaration AST converter
(`src/convert.ts`, here `part_000`, together with `src/rewrite.ts`).

The definitions below are a shallow embedding of the converter: the source
syntax tree (`Statement`, `TypeNode`, ...) mirrors the TypeScript node shapes
the converter dispatches on, the target tree (`FlowStatement`, `FlowType`, ...)
mirrors the ast-types builders the converter calls, and the conversion
functions are translated clause by clause from the source.  The JavaScript
exception channel is modelled with `Except String`; the single try/catch in
`convertStatement` becomes the explicit `match` in `convertStatement` below.
-/

namespace TsFlower

/-- A resolved symbol identity, as handed out by the external type checker.
Only its identity matters to the converter, so we model it as a `Nat`. -/
abbrev Symbol : Type := Nat

/-- `ErrorOr<T>` from `convert.ts`: success, or an `ErrorDescription` whose
`kind` field is "unimplemented" or "error" (the two kinds appear here as the
two failure constructors). -/
inductive ErrorOr (T : Type) where
  | success (result : T)
  | unimplemented (description : String)
  | error (description : String)
deriving DecidableEq

/-- `mkError` from `convert.ts`. -/
def mkError {T : Type} (description : String) : ErrorOr T :=
  ErrorOr.error description

/-- `mkUnimplemented` from `convert.ts`. -/
def mkUnimplemented {T : Type} (description : String) : ErrorOr T :=
  ErrorOr.unimplemented description

/-- `mkSuccess` from `convert.ts`. -/
def mkSuccess {T : Type} (result : T) : ErrorOr T :=
  ErrorOr.success result

/-- A Babel-style comment node as built by `b.commentBlock(value, leading,
trailing)`. -/
structure Comment where
  value : String
  leading : Bool
  trailing : Bool
deriving DecidableEq

/-- `ts.EntityNameOrEntityNameExpression`: an identifier, a qualified name
(type positions), or a property-access chain of identifiers (expression
positions, e.g. heritage clauses).  `convertEntityNameAsType` handles all
three shapes. -/
inductive EntityName where
  | identifier (text : String)
  | qualifiedName (left : EntityName) (right : String)
  | propertyAccess (expression : EntityName) (name : String)
deriving DecidableEq

/-- A `ts.Expression` as far as the converter inspects one (heritage-clause
bases, export-assignment right-hand sides): an identifier, a property access,
or anything else (carrying its `ts.SyntaxKind` name for diagnostics). -/
inductive Expression where
  | identifier (text : String)
  | propertyAccess (expression : Expression) (name : String)
  | otherExpression (kindName : String)
deriving DecidableEq

/-- `ts.isIdentifier` on an `Expression`. -/
def Expression.isIdentifier : Expression → Bool
  | Expression.identifier _ => true
  | _ => false

/-- `ts.isPropertyAccessExpression` on an `Expression`. -/
def Expression.isPropertyAccessExpression : Expression → Bool
  | Expression.propertyAccess _ _ => true
  | _ => false

/-- The entity-name reading of an `Expression`, when it is one.  `some`
exactly when `isEntityNameOrEntityNameExpression` (from the repository's
`tsutil.ts`, not under `src/`) holds: an identifier, or a property access
whose object is itself an entity-name expression. -/
def Expression.toEntityName : Expression → Option EntityName
  | Expression.identifier t => some (EntityName.identifier t)
  | Expression.propertyAccess e n =>
      (Expression.toEntityName e).map (fun en => EntityName.propertyAccess en n)
  | Expression.otherExpression _ => none

/-- Modelled from the spec: `isEntityNameOrEntityNameExpression` from
`tsutil.ts` (not under `src/`) — true for a plain or property-access chain of
identifiers. -/
def isEntityNameOrEntityNameExpression (e : Expression) : Bool :=
  (Expression.toEntityName e).isSome

/-- `ts.PropertyName`: a plain identifier, a private identifier, or any other
shape (computed name, string or numeric literal), carrying its
`ts.SyntaxKind` name for diagnostics. -/
inductive PropertyName where
  | identifier (text : String)
  | privateIdentifier (text : String)
  | otherName (kindName : String)
deriving DecidableEq

/-- The operand of a `ts.PrefixUnaryExpression` inside a literal type. -/
inductive UnaryOperand where
  | numericLiteral (text : String)
  | otherOperand (kindName : String)
deriving DecidableEq

/-- The operator of a `ts.PrefixUnaryExpression` inside a literal type. -/
inductive PrefixUnaryOperator where
  | minusToken
  | otherOperator (kindName : String)
deriving DecidableEq

/-- The `literal` child of a `ts.LiteralTypeNode`. -/
inductive TsLiteral where
  | nullKeyword
  | trueKeyword
  | falseKeyword
  | prefixUnaryExpression (operator : PrefixUnaryOperator) (operand : UnaryOperand)
  | numericLiteral (text : String)
  | stringLiteral (text : String)
  | bigIntLiteral (text : String)
  | otherLiteral (kindName : String)
deriving DecidableEq

/-- The operator of a `ts.TypeOperatorNode`. -/
inductive TypeOperatorToken where
  | keyOfKeyword
  | uniqueKeyword
  | readonlyKeyword
  | otherOperatorToken (kindName : String)
deriving DecidableEq

/-- `ts.SyntaxKind` name of a type-operator token, as used in diagnostics. -/
def TypeOperatorToken.kindNameOf : TypeOperatorToken → String
  | TypeOperatorToken.keyOfKeyword => "KeyOfKeyword"
  | TypeOperatorToken.uniqueKeyword => "UniqueKeyword"
  | TypeOperatorToken.readonlyKeyword => "ReadonlyKeyword"
  | TypeOperatorToken.otherOperatorToken k => k

/-- The name of a function parameter: an identifier, or a binding pattern
(which the converter discards, emitting an unnamed parameter). -/
inductive ParamName where
  | identifier (text : String)
  | bindingPattern (kindName : String)
deriving DecidableEq

mutual

/-- A `ts.TypeNode` with its source span (`pos`/`end` offsets into the file
text, used verbatim for quoting in fallback output). -/
inductive TypeNode where
  | mk (pos : Nat) (endPos : Nat) (payload : TypePayload)

/-- The kind-specific payload of a `ts.TypeNode`, one constructor per
`ts.SyntaxKind` case distinguished by `convertType`. -/
inductive TypePayload where
  | unknownKeyword | anyKeyword | neverKeyword
  | undefinedKeyword | voidKeyword
  | booleanKeyword | numberKeyword | stringKeyword | objectKeyword
  | thisType
  | parenthesizedType (type : TypeNode)
  | literalType (literal : TsLiteral)
  | typeQuery (exprName : EntityName)
  | typeOperator (operator : TypeOperatorToken) (type : TypeNode)
  | typeReference (typeName : EntityName) (typeArguments : Option (List TypeNode))
  | unionType (types : List TypeNode)
  | intersectionType (types : List TypeNode)
  | indexedAccessType (objectType : TypeNode) (indexType : TypeNode)
  | arrayType (elementType : TypeNode)
  | tupleType (elements : List TypeNode)
  | functionType (sig : FunctionSig)
  | typeLiteral (members : List TypeElement)
  | typePredicate | constructorType | optionalType | restType
  | conditionalType | inferType | mappedType
  | templateLiteralType | templateLiteralTypeSpan | importType
  | namedTupleMember
  | otherType (kindName : String)

/-- The signature data shared by `ts.FunctionTypeNode`,
`ts.FunctionDeclaration`, `ts.ConstructorDeclaration` and
`ts.MethodDeclaration`: type parameters, parameters, and the optional
declared return type (the source's `node.type`). -/
inductive FunctionSig where
  | mk (typeParameters : Option (List TypeParamDecl)) (parameters : List Param)
      (type? : Option TypeNode)

/-- A `ts.ParameterDeclaration`. -/
inductive Param where
  | mk (name : ParamName) (dotDotDotToken : Bool) (questionToken : Bool)
      (type? : Option TypeNode)

/-- A `ts.TypeParameterDeclaration`. -/
inductive TypeParamDecl where
  | mk (name : String) (constraint : Option TypeNode) (default? : Option TypeNode)

/-- A `ts.TypeElement`, member of a `ts.TypeLiteralNode`.  The converter
casts a property signature's name to `ts.Identifier` (a TODO in the source),
so the name appears here as its text. -/
inductive TypeElement where
  | propertySignature (name : String) (questionToken : Bool) (type? : Option TypeNode)
  | callSignature | constructSignature | methodSignature
  | getAccessorElement | setAccessorElement | indexSignatureElement
  | otherElement (kindName : String)

end

/-- `ts.SyntaxKind` name of a `TypePayload`, as `ts.SyntaxKind[node.kind]`. -/
def TypePayload.kindNameOf : TypePayload → String
  | TypePayload.unknownKeyword => "UnknownKeyword"
  | TypePayload.anyKeyword => "AnyKeyword"
  | TypePayload.neverKeyword => "NeverKeyword"
  | TypePayload.undefinedKeyword => "UndefinedKeyword"
  | TypePayload.voidKeyword => "VoidKeyword"
  | TypePayload.booleanKeyword => "BooleanKeyword"
  | TypePayload.numberKeyword => "NumberKeyword"
  | TypePayload.stringKeyword => "StringKeyword"
  | TypePayload.objectKeyword => "ObjectKeyword"
  | TypePayload.thisType => "ThisType"
  | TypePayload.parenthesizedType _ => "ParenthesizedType"
  | TypePayload.literalType _ => "LiteralType"
  | TypePayload.typeQuery _ => "TypeQuery"
  | TypePayload.typeOperator _ _ => "TypeOperator"
  | TypePayload.typeReference _ _ => "TypeReference"
  | TypePayload.unionType _ => "UnionType"
  | TypePayload.intersectionType _ => "IntersectionType"
  | TypePayload.indexedAccessType _ _ => "IndexedAccessType"
  | TypePayload.arrayType _ => "ArrayType"
  | TypePayload.tupleType _ => "TupleType"
  | TypePayload.functionType _ => "FunctionType"
  | TypePayload.typeLiteral _ => "TypeLiteral"
  | TypePayload.typePredicate => "TypePredicate"
  | TypePayload.constructorType => "ConstructorType"
  | TypePayload.optionalType => "OptionalType"
  | TypePayload.restType => "RestType"
  | TypePayload.conditionalType => "ConditionalType"
  | TypePayload.inferType => "InferType"
  | TypePayload.mappedType => "MappedType"
  | TypePayload.templateLiteralType => "TemplateLiteralType"
  | TypePayload.templateLiteralTypeSpan => "TemplateLiteralTypeSpan"
  | TypePayload.importType => "ImportType"
  | TypePayload.namedTupleMember => "NamedTupleMember"
  | TypePayload.otherType k => k

/-- The span start of a `TypeNode` (`node.pos`). -/
def TypeNode.pos : TypeNode → Nat
  | TypeNode.mk p _ _ => p

/-- The span end of a `TypeNode` (`node.end`). -/
def TypeNode.endPos : TypeNode → Nat
  | TypeNode.mk _ e _ => e

/-- The payload of a `TypeNode`. -/
def TypeNode.payload : TypeNode → TypePayload
  | TypeNode.mk _ _ pl => pl

/-- A statement modifier (`ts.Modifier`), as far as `hasModifier` tests. -/
inductive Modifier where
  | exportKeyword
  | defaultKeyword
  | declareKeyword
  | otherModifier (kindName : String)
deriving DecidableEq

/-- A `ts.ImportSpecifier` inside named imports: `propertyName` is the
imported name when aliased (`import { a as b }`), `name` the local name. -/
structure ImportSpecifierIn where
  propertyName : Option String
  name : String
deriving DecidableEq

/-- The `namedBindings` of a `ts.ImportClause`. -/
inductive NamedBindings where
  | namedImports (elements : List ImportSpecifierIn)
  | namespaceImport (name : String)
deriving DecidableEq

/-- A `ts.ImportClause`; `hasModifiers` models the truthiness of
`importClause.modifiers`. -/
structure ImportClause where
  hasModifiers : Bool
  name : Option String
  namedBindings : Option NamedBindings
deriving DecidableEq

/-- A `ts.ExportSpecifier` inside named exports. -/
structure ExportSpecifierIn where
  isTypeOnly : Bool
  propertyName : Option String
  name : String
deriving DecidableEq

/-- The `exportClause` of a `ts.ExportDeclaration`. -/
inductive ExportClause where
  | namespaceExport (name : String)
  | namedExports (elements : List ExportSpecifierIn)
deriving DecidableEq

/-- A `ts.ExpressionWithTypeArguments` in a heritage clause. -/
structure HeritageType where
  expression : Expression
  typeArguments : Option (List TypeNode)

/-- The token of a `ts.HeritageClause`. -/
inductive HeritageToken where
  | extendsKeyword
  | implementsKeyword
deriving DecidableEq

/-- A `ts.HeritageClause`. -/
structure HeritageClause where
  token : HeritageToken
  types : List HeritageType

/-- A `ts.ClassElement | ts.TypeElement` member of a class or interface
declaration, one constructor per `ts.SyntaxKind` case distinguished by
`convertClassLikeDeclaration`. -/
inductive ClassMember where
  | constructorMember (sig : FunctionSig)
  | propertyMember (isSignature : Bool) (name : PropertyName) (questionToken : Bool)
      (type? : Option TypeNode)
  | methodMember (isSignature : Bool) (name : PropertyName) (questionToken : Bool)
      (sig : FunctionSig)
  | callSignature | constructSignature | semicolonClassElement
  | getAccessor (name : PropertyName) (sig : FunctionSig)
  | setAccessor (name : PropertyName) (sig : FunctionSig)
  | indexSignature | classStaticBlockDeclaration
  | otherMember (kindName : String)

/-- `ts.SyntaxKind` name of a class/interface member, as used in
diagnostics.  (Property and method members print their signature/declaration
variant, though the converter never prints those.) -/
def ClassMember.kindNameOf : ClassMember → String
  | ClassMember.constructorMember _ => "Constructor"
  | ClassMember.propertyMember isSig _ _ _ =>
      if isSig then "PropertySignature" else "PropertyDeclaration"
  | ClassMember.methodMember isSig _ _ _ =>
      if isSig then "MethodSignature" else "MethodDeclaration"
  | ClassMember.callSignature => "CallSignature"
  | ClassMember.constructSignature => "ConstructSignature"
  | ClassMember.semicolonClassElement => "SemicolonClassElement"
  | ClassMember.getAccessor _ _ => "GetAccessor"
  | ClassMember.setAccessor _ _ => "SetAccessor"
  | ClassMember.indexSignature => "IndexSignature"
  | ClassMember.classStaticBlockDeclaration => "ClassStaticBlockDeclaration"
  | ClassMember.otherMember k => k

/-- A `ts.VariableDeclaration` in a variable statement; the converter casts
the binding name to `ts.Identifier` (a TODO in the source), so the name
appears here as its text. -/
structure VariableDeclarationIn where
  name : String
  type? : Option TypeNode

/-- The kind-specific payload of a `ts.Statement`, one constructor per
`ts.SyntaxKind` case distinguished by `convertStatementExceptExport`. -/
inductive StmtPayload where
  | importDeclaration (importClause : Option ImportClause) (moduleSpecifier : String)
  | exportDeclaration (isTypeOnly : Bool) (exportClause : Option ExportClause)
      (moduleSpecifier : Option String) (hasAssertClause : Bool)
  | exportAssignment (isExportEquals : Bool) (expression : Expression)
  | variableStatement (flags : Nat) (declarations : List VariableDeclarationIn)
  | typeAliasDeclaration (name : String) (typeParameters : Option (List TypeParamDecl))
      (type : TypeNode)
  | functionDeclaration (name : Option String) (sig : FunctionSig)
  | classDeclaration (name : Option String) (typeParameters : Option (List TypeParamDecl))
      (heritageClauses : List HeritageClause) (members : List ClassMember)
  | interfaceDeclaration (name : Option String) (typeParameters : Option (List TypeParamDecl))
      (heritageClauses : List HeritageClause) (members : List ClassMember)
  | block | emptyStatement | enumDeclaration | moduleDeclaration
  | namespaceExportDeclaration | importEqualsDeclaration | missingDeclaration
  | expressionStatement | ifStatement | doStatement | whileStatement | forStatement
  | forInStatement | forOfStatement | continueStatement | breakStatement
  | returnStatement | withStatement | switchStatement | labeledStatement
  | throwStatement | tryStatement | debuggerStatement | caseBlock
  | variableDeclarationKind | variableDeclarationListKind | moduleBlock
  | importClauseKind | namespaceImportKind | namedImportsKind | importSpecifierKind
  | namedExportsKind | namespaceExportKind | exportSpecifierKind
  | otherStatement (kindName : String)

/-- `ts.SyntaxKind` name of a statement payload, as
`ts.SyntaxKind[node.kind]`. -/
def StmtPayload.kindNameOf : StmtPayload → String
  | StmtPayload.importDeclaration _ _ => "ImportDeclaration"
  | StmtPayload.exportDeclaration _ _ _ _ => "ExportDeclaration"
  | StmtPayload.exportAssignment _ _ => "ExportAssignment"
  | StmtPayload.variableStatement _ _ => "VariableStatement"
  | StmtPayload.typeAliasDeclaration _ _ _ => "TypeAliasDeclaration"
  | StmtPayload.functionDeclaration _ _ => "FunctionDeclaration"
  | StmtPayload.classDeclaration _ _ _ _ => "ClassDeclaration"
  | StmtPayload.interfaceDeclaration _ _ _ _ => "InterfaceDeclaration"
  | StmtPayload.block => "Block"
  | StmtPayload.emptyStatement => "EmptyStatement"
  | StmtPayload.enumDeclaration => "EnumDeclaration"
  | StmtPayload.moduleDeclaration => "ModuleDeclaration"
  | StmtPayload.namespaceExportDeclaration => "NamespaceExportDeclaration"
  | StmtPayload.importEqualsDeclaration => "ImportEqualsDeclaration"
  | StmtPayload.missingDeclaration => "MissingDeclaration"
  | StmtPayload.expressionStatement => "ExpressionStatement"
  | StmtPayload.ifStatement => "IfStatement"
  | StmtPayload.doStatement => "DoStatement"
  | StmtPayload.whileStatement => "WhileStatement"
  | StmtPayload.forStatement => "ForStatement"
  | StmtPayload.forInStatement => "ForInStatement"
  | StmtPayload.forOfStatement => "ForOfStatement"
  | StmtPayload.continueStatement => "ContinueStatement"
  | StmtPayload.breakStatement => "BreakStatement"
  | StmtPayload.returnStatement => "ReturnStatement"
  | StmtPayload.withStatement => "WithStatement"
  | StmtPayload.switchStatement => "SwitchStatement"
  | StmtPayload.labeledStatement => "LabeledStatement"
  | StmtPayload.throwStatement => "ThrowStatement"
  | StmtPayload.tryStatement => "TryStatement"
  | StmtPayload.debuggerStatement => "DebuggerStatement"
  | StmtPayload.caseBlock => "CaseBlock"
  | StmtPayload.variableDeclarationKind => "VariableDeclaration"
  | StmtPayload.variableDeclarationListKind => "VariableDeclarationList"
  | StmtPayload.moduleBlock => "ModuleBlock"
  | StmtPayload.importClauseKind => "ImportClause"
  | StmtPayload.namespaceImportKind => "NamespaceImport"
  | StmtPayload.namedImportsKind => "NamedImports"
  | StmtPayload.importSpecifierKind => "ImportSpecifier"
  | StmtPayload.namedExportsKind => "NamedExports"
  | StmtPayload.namespaceExportKind => "NamespaceExport"
  | StmtPayload.exportSpecifierKind => "ExportSpecifier"
  | StmtPayload.otherStatement k => k

/-- A `ts.Statement` with its source span and modifiers. -/
structure Statement where
  pos : Nat
  endPos : Nat
  modifiers : List Modifier
  payload : StmtPayload

/-- `hasModifier` from the repository's `tsutil.ts` (not under `src/`),
modelled from its use: whether the statement's modifier list contains the
given modifier kind. -/
def hasModifier (node : Statement) (m : Modifier) : Bool :=
  node.modifiers.any (fun x => x = m)

/-!
The target (Flow) syntax tree, mirroring the ast-types node shapes the
converter builds.  Constructor names follow the ast-types builders, with
`...TypeAnnotation` shortened to `...TypeAnnot`.  Comments attached to a node
(`FlowStatement.comments`, the last field of `genericTypeAnnot`) are the
diagnostic channel; builders fill them with `[]` unless the source passes an
explicit `comments` list.
-/

mutual

/-- A Flow type node (`K.FlowTypeKind`). -/
inductive FlowType where
  | mixedTypeAnnot
  | anyTypeAnnot
  | emptyTypeAnnot
  | voidTypeAnnot
  | booleanTypeAnnot
  | numberTypeAnnot
  | stringTypeAnnot
  | thisTypeAnnot
  | nullTypeAnnot
  | booleanLiteralTypeAnnot (value : Bool) (raw : String)
  /-- `b.numberLiteralTypeAnnotation(±Number(text), text)`: the numeric value
  is determined by the raw text and the negation flag, which is what we
  record (JS float parsing is not modelled). -/
  | numberLiteralTypeAnnot (negated : Bool) (raw : String)
  | stringLiteralTypeAnnot (value : String) (raw : String)
  | objectTypeAnnot (properties : List ObjectTypeProperty)
      (indexers : List ObjectTypeIndexer) (callProperties : List ObjectTypeCallProperty)
      (exact : Bool) (inexact : Bool)
  | genericTypeAnnot (id : FlowTypeId) (typeParameters : Option (List FlowType))
      (comments : List Comment)
  | typeofTypeAnnot (argument : FlowType)
  | unionTypeAnnot (types : List FlowType)
  | intersectionTypeAnnot (types : List FlowType)
  | arrayTypeAnnot (elementType : FlowType)
  | tupleTypeAnnot (types : List FlowType)
  | functionTypeAnnot (params : List FunctionTypeParam) (returnType : FlowType)
      (rest : Option FunctionTypeParam) (typeParameters : Option (List FlowTypeParameter))

/-- An identifier or qualified type identifier
(`K.IdentifierKind | n.QualifiedTypeIdentifier`) in type-reference position. -/
inductive FlowTypeId where
  | identifier (name : String)
  | qualifiedTypeIdentifier (qualification : FlowTypeId) (id : String)

/-- The key of an `ObjectTypeProperty`: an identifier or a string literal. -/
inductive ObjectTypeKey where
  | identifier (name : String)
  | stringLiteral (value : String)

/-- `b.objectTypeProperty(key, value, optional)`. -/
inductive ObjectTypeProperty where
  | mk (key : ObjectTypeKey) (value : FlowType) (optional : Bool)

/-- `b.objectTypeIndexer(id, key, value)`. -/
inductive ObjectTypeIndexer where
  | mk (id : String) (key : FlowType) (value : FlowType)

/-- An `ObjectTypeCallProperty`; the converter never builds one (the lists it
passes are always empty), so this carries no data. -/
inductive ObjectTypeCallProperty where
  | mk

/-- `b.functionTypeParam(name, type, optional)`; `name` is an identifier or
null. -/
inductive FunctionTypeParam where
  | mk (name : Option FlowIdentifier) (typeAnnot : FlowType) (optional : Bool)

/-- `b.typeParameter(name, variance, bound, default)`, with the variance
(always null in the source) omitted and the bound's `b.typeAnnotation`
wrapper represented by the `Option`. -/
inductive FlowTypeParameter where
  | mk (name : String) (bound : Option FlowType) (default? : Option FlowType)

/-- A target identifier (`K.IdentifierKind`), optionally carrying a type
annotation (`b.identifier.from({name, typeAnnotation})`). -/
inductive FlowIdentifier where
  | mk (name : String) (typeAnnot : Option FlowType)

end

/-- An import specifier in the output
(`n.ImportSpecifier | n.ImportNamespaceSpecifier | n.ImportDefaultSpecifier`);
`importKind` is `"type"` or `"value"`. -/
inductive ImportSpecifierOut where
  | importSpecifier (imported : FlowIdentifier) (localName : FlowIdentifier)
      (importKind : String)
  | importDefaultSpecifier (localName : FlowIdentifier)
  | importNamespaceSpecifier (localName : FlowIdentifier)

/-- An export specifier in the output; `exportKind` is `"type"` or
`"value"`. -/
inductive ExportSpecifierOut where
  | exportSpecifier (localName : FlowIdentifier) (exported : FlowIdentifier)
      (exportKind : String)
  | exportNamespaceSpecifier (name : FlowIdentifier)

/-- `b.interfaceExtends.from({id, typeParameters})`. -/
structure InterfaceExtends where
  id : FlowTypeId
  typeParameters : Option (List FlowType)

/-- `b.variableDeclarator(id)` (no initializer in declaration files). -/
structure VariableDeclaratorOut where
  id : FlowIdentifier

mutual

/-- A target statement (`K.StatementKind`): its attached comments and its
kind-specific payload. -/
inductive FlowStatement where
  | mk (comments : List Comment) (payload : FlowStmtPayload)

/-- The payload of a target statement, one constructor per ast-types node
kind the converter builds (`debuggerStatement` is included as a
representative statement kind that is neither a `Declaration` nor an
`EmptyStatement` in the ast-types hierarchy). -/
inductive FlowStmtPayload where
  | emptyStatement
  | debuggerStatement
  | importDeclaration (specifiers : List ImportSpecifierOut) (source : String)
  | exportAllDeclaration (source : String)
  | exportNamedDeclaration (declaration : Option FlowStatement)
      (specifiers : List ExportSpecifierOut) (source : Option String)
      (exportKind : String)
  | exportDefaultDeclaration (declaration : FlowIdentifier)
  | variableDeclaration (kind : String) (declarations : List VariableDeclaratorOut)
  | typeAlias (id : FlowIdentifier) (typeParameters : Option (List FlowTypeParameter))
      (right : FlowType)
  | declareFunction (id : FlowIdentifier)
  | declareClass (id : FlowIdentifier) (typeParameters : Option (List FlowTypeParameter))
      (extends_ : List InterfaceExtends) (body : FlowType)
  | declareInterface (id : FlowIdentifier) (typeParameters : Option (List FlowTypeParameter))
      (extends_ : List InterfaceExtends) (body : FlowType)
  | interfaceDeclaration (id : FlowIdentifier)
      (typeParameters : Option (List FlowTypeParameter))
      (extends_ : List InterfaceExtends) (body : FlowType)
  | declareExportDeclaration (isDefault : Bool) (declaration : FlowStatement)

end

/-- The comments attached to a target statement. -/
def FlowStatement.comments : FlowStatement → List Comment
  | FlowStatement.mk c _ => c

/-- The payload of a target statement. -/
def FlowStatement.payload : FlowStatement → FlowStmtPayload
  | FlowStatement.mk _ p => p

/-- `n.EmptyStatement.check`. -/
def isEmptyStatementCheck (s : FlowStatement) : Bool :=
  match s.payload with
  | FlowStmtPayload.emptyStatement => true
  | _ => false

/-- `n.DeclareFunction.check`. -/
def isDeclareFunctionCheck (s : FlowStatement) : Bool :=
  match s.payload with
  | FlowStmtPayload.declareFunction _ => true
  | _ => false

/-- `n.DeclareClass.check`. -/
def isDeclareClassCheck (s : FlowStatement) : Bool :=
  match s.payload with
  | FlowStmtPayload.declareClass _ _ _ _ => true
  | _ => false

/-- `n.DeclareInterface.check`. -/
def isDeclareInterfaceCheck (s : FlowStatement) : Bool :=
  match s.payload with
  | FlowStmtPayload.declareInterface _ _ _ _ => true
  | _ => false

/-- `n.Declaration.check`, per the ast-types kind hierarchy: Declaration
covers VariableDeclaration, TypeAlias, InterfaceDeclaration (and its
subtypes DeclareInterface and DeclareClass), ImportDeclaration and the ES6
export declarations; DeclareFunction, EmptyStatement and DebuggerStatement
base directly on Statement. -/
def isDeclarationCheck (s : FlowStatement) : Bool :=
  match s.payload with
  | FlowStmtPayload.importDeclaration _ _ => true
  | FlowStmtPayload.exportAllDeclaration _ => true
  | FlowStmtPayload.exportNamedDeclaration _ _ _ _ => true
  | FlowStmtPayload.exportDefaultDeclaration _ => true
  | FlowStmtPayload.variableDeclaration _ _ => true
  | FlowStmtPayload.typeAlias _ _ _ => true
  | FlowStmtPayload.declareClass _ _ _ _ => true
  | FlowStmtPayload.declareInterface _ _ _ _ => true
  | FlowStmtPayload.interfaceDeclaration _ _ _ _ => true
  | _ => false

/-- The `program` node of the output `n.File`. -/
structure FlowProgram where
  comments : List Comment
  body : List FlowStatement

/-- The output `n.File`. -/
structure FlowFile where
  program : FlowProgram
  name : String

/-!
Rewrite rules (`src/rewrite.ts`) and the Mapper's result type.  The macros of
the repository are first-class functions in the source; here they are named
by `MacroId` and interpreted inside the type converter's mutual recursion
(their bodies appear below as `convertOmit`, `convertReactComponent`,
`convertReactElement`, `convertJsxElement`, translated from `rewrite.ts`).
-/

/-- Names the four rewrite TypeReferenceMacro functions defined in
`rewrite.ts`. -/
inductive MacroId where
  | omitRule
  | reactComponentRule
  | reactElementRule
  | jsxElementRule
deriving DecidableEq

/-- `TypeRewrite` from `rewrite.ts`: FixedName, RenameType, or a
TypeReferenceMacro. -/
inductive TypeRewrite where
  | FixedName (name : String)
  | RenameType (name : String)
  | TypeReferenceMacro (m : MacroId)
deriving DecidableEq

/-- `mkFixedName` from `rewrite.ts`. -/
def mkFixedName (name : String) : TypeRewrite :=
  TypeRewrite.FixedName name

/-- `mkTypeReferenceMacro` from `rewrite.ts`. -/
def mkTypeReferenceMacro (m : MacroId) : TypeRewrite :=
  TypeRewrite.TypeReferenceMacro m

/-- `NamespaceRewrite` from `rewrite.ts`: a `types` map and a `namespaces`
map, both here as association lists. -/
inductive NamespaceRewrite where
  | mk (types : List (String × TypeRewrite)) (namespaces : List (String × NamespaceRewrite))

/-- The `types` map of a `NamespaceRewrite`. -/
def NamespaceRewrite.types : NamespaceRewrite → List (String × TypeRewrite)
  | NamespaceRewrite.mk t _ => t

/-- The `namespaces` map of a `NamespaceRewrite`. -/
def NamespaceRewrite.namespaces : NamespaceRewrite → List (String × NamespaceRewrite)
  | NamespaceRewrite.mk _ n => n

/-- `defaultLibraryRewrites` from `rewrite.ts`. -/
def defaultLibraryRewrites : NamespaceRewrite :=
  NamespaceRewrite.mk
    [("Readonly", mkFixedName "$ReadOnly"),
     ("ReadonlyArray", mkFixedName "$ReadOnlyArray"),
     ("Omit", mkTypeReferenceMacro MacroId.omitRule)]
    []

/-- `globalRewrites` from `rewrite.ts`. -/
def globalRewrites : NamespaceRewrite :=
  NamespaceRewrite.mk []
    [("JSX", NamespaceRewrite.mk
        [("Element", mkTypeReferenceMacro MacroId.jsxElementRule)] [])]

/-- `libraryRewrites` from `rewrite.ts`. -/
def libraryRewrites : List (String × NamespaceRewrite) :=
  [("react", NamespaceRewrite.mk
      [("Component", mkTypeReferenceMacro MacroId.reactComponentRule),
       ("ReactElement", mkTypeReferenceMacro MacroId.reactElementRule)]
      [])]

/-- Modelled from the spec: the Mapper's result type (`MapResultType` in the
repository's `mapper.ts`, which is not under `src/`).  The converter
dispatches on exactly two result shapes, FixedName (which also stands for
RenameType rules, treated identically per §3 of the spec) and
TypeReferenceMacro. -/
inductive MapResult where
  | FixedName (name : String)
  | TypeReferenceMacro (m : MacroId)
deriving DecidableEq

/-- Modelled from the spec: how the Mapper surfaces a table rule to the
converter — FixedName and RenameType rules both become `FixedName` results
(the converter "treats it identically to FixedName", spec §3), macros become
`TypeReferenceMacro` results. -/
def TypeRewrite.toMapResult : TypeRewrite → MapResult
  | TypeRewrite.FixedName n => MapResult.FixedName n
  | TypeRewrite.RenameType n => MapResult.FixedName n
  | TypeRewrite.TypeReferenceMacro m => MapResult.TypeReferenceMacro m

/-- Lookup in the `types` map of a `NamespaceRewrite`. -/
def NamespaceRewrite.lookupType (nr : NamespaceRewrite) (name : String) :
    Option TypeRewrite :=
  (nr.types.find? (fun p => p.1 = name)).map Prod.snd

/-- The per-file conversion environment: the source file's text and name
(from `ts.SourceFile`), the type checker's symbol information (from
`ts.TypeChecker`), and the per-file Mapper.  All are read-only. -/
structure Env where
  fileText : String
  fileName : String
  /-- `checker.getSymbolAtLocation` on a name node. -/
  getSymbolAtLocation : EntityName → Option Symbol
  /-- `checker.getImmediateAliasedSymbol`. -/
  getImmediateAliasedSymbol : Symbol → Option Symbol
  /-- Truthiness of `symbol.flags & ts.SymbolFlags.Value`. -/
  symbolHasValueMeaning : Symbol → Bool
  /-- `symbol.declarations`, each declaration reduced to the truthiness of
  its `typeParameters` list (all `convertTypeArguments` inspects). -/
  symbolDeclarations : Symbol → Option (List Bool)
  /-- `mapper.getSymbol`. -/
  mapperGetSymbol : Symbol → Option MapResult

/-- `sourceFile.text.slice(a, b)`: the characters of the file text from
offset `a` (inclusive) to `b` (exclusive). -/
def sliceText (text : String) (a b : Nat) : String :=
  String.mk ((text.toList.drop a).take (b - a))

/-- Modelled from the spec: the `some` helper from the repository's
`util.ts` (not under `src/`) — a predicate `any` over an optional array,
false when the array is absent. -/
def someOpt {A : Type} (xs : Option (List A)) (p : A → Bool) : Bool :=
  match xs with
  | none => false
  | some l => l.any p

/-- `quotedStatement`: a trailing comment block quoting the statement's
source span verbatim (`sourceFile.text.slice(node.pos, node.end)`), framed
by one space on each side. -/
def quotedStatement (env : Env) (node : Statement) : Comment :=
  Comment.mk (" " ++ sliceText env.fileText node.pos node.endPos ++ " ") false true

/-- `quotedInlineNode`: same as `quotedStatement`, for inline (type)
nodes. -/
def quotedInlineNode (env : Env) (node : TypeNode) : Comment :=
  Comment.mk (" " ++ sliceText env.fileText node.pos node.endPos ++ " ") false true

/-- `unimplementedStatement`: the unimplemented placeholder — an empty
statement carrying a leading "tsflower-unimplemented" diagnostic comment and
the verbatim quotation of the statement's source span. -/
def unimplementedStatement (env : Env) (node : Statement) (description : String) :
    FlowStatement :=
  FlowStatement.mk
    [Comment.mk (" tsflower-unimplemented: " ++ description ++ " ") true false,
     quotedStatement env node]
    FlowStmtPayload.emptyStatement

/-- `errorStatement`: the invalid placeholder — an empty statement carrying
a leading "tsflower-error" diagnostic comment and the verbatim quotation of
the statement's source span. -/
def errorStatement (env : Env) (node : Statement) (description : String) :
    FlowStatement :=
  FlowStatement.mk
    [Comment.mk (" tsflower-error: " ++ description ++ " ") true false,
     quotedStatement env node]
    FlowStmtPayload.emptyStatement

/-- `warningStatement`: the converted node itself (`{...outNode}`), with its
comments replaced by a leading "tsflower-warning" diagnostic and the quoted
original statement. -/
def warningStatement (env : Env) (outNode : FlowStatement) (node : Statement)
    (description : String) : FlowStatement :=
  FlowStatement.mk
    [Comment.mk (" tsflower-warning: " ++ description ++ " ") true false,
     quotedStatement env node]
    outNode.payload

/-- `unimplementedType`: the unimplemented placeholder type — a bare
`$FlowFixMe` reference carrying the quoted source span and a trailing
"tsflower-unimplemented" diagnostic comment. -/
def unimplementedType (env : Env) (node : TypeNode) (description : String) : FlowType :=
  FlowType.genericTypeAnnot (FlowTypeId.identifier "$FlowFixMe") none
    [quotedInlineNode env node,
     Comment.mk (" tsflower-unimplemented: " ++ description ++ " ") false true]

/-- `errorType`: the invalid placeholder type — a bare `$FlowFixMe`
reference carrying the quoted source span and a trailing "tsflower-error"
diagnostic comment. -/
def errorType (env : Env) (node : TypeNode) (description : String) : FlowType :=
  FlowType.genericTypeAnnot (FlowTypeId.identifier "$FlowFixMe") none
    [quotedInlineNode env node,
     Comment.mk (" tsflower-error: " ++ description ++ " ") false true]

/-- `convertIdentifier`: an output identifier with the given name and
optional type annotation. -/
def convertIdentifier (text : String) (type? : Option FlowType) : FlowIdentifier :=
  FlowIdentifier.mk text type?

/-- `convertEntityNameAsType`: identifiers convert to identifiers; qualified
names and (entity-name) property accesses to qualified type identifiers. -/
def convertEntityNameAsType : EntityName → FlowTypeId
  | EntityName.identifier t => FlowTypeId.identifier t
  | EntityName.qualifiedName l r =>
      FlowTypeId.qualifiedTypeIdentifier (convertEntityNameAsType l) r
  | EntityName.propertyAccess e n =>
      FlowTypeId.qualifiedTypeIdentifier (convertEntityNameAsType e) n

/-- `convertLiteralType`, translated case by case; `pos`/`endPos` are the
literal-type node's span (for placeholder quoting) and `literal` its
`node.literal` child. -/
def convertLiteralType (env : Env) (pos endPos : Nat) (literal : TsLiteral) : FlowType :=
  let node := TypeNode.mk pos endPos (TypePayload.literalType literal)
  match literal with
  | TsLiteral.nullKeyword => FlowType.nullTypeAnnot
  | TsLiteral.falseKeyword => FlowType.booleanLiteralTypeAnnot false "false"
  | TsLiteral.trueKeyword => FlowType.booleanLiteralTypeAnnot true "true"
  | TsLiteral.prefixUnaryExpression op operand =>
      match op with
      | PrefixUnaryOperator.minusToken =>
          match operand with
          | UnaryOperand.numericLiteral text =>
              FlowType.numberLiteralTypeAnnot true text
          | UnaryOperand.otherOperand kindName =>
              errorType env node
                ("LiteralTypeNode with unary-minus of " ++ kindName ++
                  "; expected NumericLiteral")
      | PrefixUnaryOperator.otherOperator kindName =>
          errorType env node
            ("LiteralTypeNode with PrefixUnaryExpression operator " ++ kindName ++
              "; expected MinusToken")
  | TsLiteral.numericLiteral text => FlowType.numberLiteralTypeAnnot false text
  | TsLiteral.stringLiteral text => FlowType.stringLiteralTypeAnnot text text
  | TsLiteral.bigIntLiteral _ =>
      errorType env node "unexpected literal-type kind: BigIntLiteral"
  | TsLiteral.otherLiteral kindName =>
      errorType env node ("unexpected literal-type kind: " ++ kindName)

/-- The `{ id, typeParameters }` reference shape returned by
`convertTypeReferenceLike` and the rewrite TypeReferenceMacro functions. -/
structure RefShape where
  id : FlowTypeId
  typeParameters : Option (List FlowType)

/-- `convertJsxElement` from `rewrite.ts`: the fixed expansion
`React$Element<any>`. -/
def convertJsxElement : ErrorOr RefShape :=
  mkSuccess
    { id := FlowTypeId.identifier "React$Element",
      typeParameters := some [FlowType.anyTypeAnnot] }

/-- `typeArguments?.length ?? 0`: the number of supplied type arguments,
with an absent list counted as 0. -/
def tsArgCount (typeArguments : Option (List TypeNode)) : Nat :=
  match typeArguments with
  | none => 0
  | some l => l.length

/-- `ts.isLiteralTypeNode(t) && ts.isStringLiteral(t.literal)`. -/
def isStringLiteralTypeNode (t : TypeNode) : Bool :=
  match t.payload with
  | TypePayload.literalType (TsLiteral.stringLiteral _) => true
  | _ => false

/-- The text of a string-literal type node (the source's
`(t as ts.LiteralTypeNode).literal as ts.StringLiteral).text`; only used
under the `isStringLiteralTypeNode` check). -/
def stringLiteralTextOf (t : TypeNode) : String :=
  match t.payload with
  | TypePayload.literalType (TsLiteral.stringLiteral s) => s
  | _ => ""

/-- `ts.isUnionTypeNode(t) && t.types.every(isStringLiteralTypeNode-ish)`. -/
def isUnionOfStringLiterals (t : TypeNode) : Bool :=
  match t.payload with
  | TypePayload.unionType types => types.all isStringLiteralTypeNode
  | _ => false

/-- The member types of a union type node (only used under the
`isUnionOfStringLiterals` check). -/
def unionTypesOf (t : TypeNode) : List TypeNode :=
  match t.payload with
  | TypePayload.unionType types => types
  | _ => []

/-- The parameter-name computation of `convertFunctionType`:
`!ts.isIdentifier(param.name) ? null : convertIdentifier(param.name)` —
a binding-pattern name is discarded, yielding an unnamed parameter. -/
def paramNameOut : ParamName → Option FlowIdentifier
  | ParamName.identifier t => some (convertIdentifier t none)
  | ParamName.bindingPattern _ => none

/-- `ts.SyntaxKind` name of a type-literal member, as used in
diagnostics. -/
def TypeElement.kindNameOf : TypeElement → String
  | TypeElement.propertySignature _ _ _ => "PropertySignature"
  | TypeElement.callSignature => "CallSignature"
  | TypeElement.constructSignature => "ConstructSignature"
  | TypeElement.methodSignature => "MethodSignature"
  | TypeElement.getAccessorElement => "GetAccessor"
  | TypeElement.setAccessorElement => "SetAccessor"
  | TypeElement.indexSignatureElement => "IndexSignature"
  | TypeElement.otherElement k => k

mutual

/-- `convertType`, translated case by case from `convert.ts`.  (The source's
duplicate dead `LiteralType` entry in the unimplemented group is shadowed by
the earlier live case, as in a TypeScript `switch`.) -/
def convertType (env : Env) (node : TypeNode) : FlowType :=
  match node with
  | TypeNode.mk pos endPos payload =>
    match payload with
    | TypePayload.unknownKeyword => FlowType.mixedTypeAnnot
    | TypePayload.anyKeyword => FlowType.anyTypeAnnot
    | TypePayload.neverKeyword => FlowType.emptyTypeAnnot
    | TypePayload.undefinedKeyword => FlowType.voidTypeAnnot
    | TypePayload.voidKeyword => FlowType.voidTypeAnnot
    | TypePayload.booleanKeyword => FlowType.booleanTypeAnnot
    | TypePayload.numberKeyword => FlowType.numberTypeAnnot
    | TypePayload.stringKeyword => FlowType.stringTypeAnnot
    | TypePayload.objectKeyword => FlowType.objectTypeAnnot [] [] [] false true
    | TypePayload.thisType => FlowType.thisTypeAnnot
    | TypePayload.parenthesizedType inner => convertType env inner
    | TypePayload.literalType lit => convertLiteralType env pos endPos lit
    | TypePayload.typeQuery exprName =>
        FlowType.typeofTypeAnnot
          (FlowType.genericTypeAnnot (convertEntityNameAsType exprName) none [])
    | TypePayload.typeOperator op ty => convertTypeOperator env pos endPos op ty
    | TypePayload.typeReference typeName typeArguments =>
        convertTypeReference env pos endPos typeName typeArguments
    | TypePayload.unionType types => convertUnionType env types
    | TypePayload.intersectionType types =>
        FlowType.intersectionTypeAnnot (convertTypeList env types)
    | TypePayload.indexedAccessType objectType indexType =>
        FlowType.genericTypeAnnot (FlowTypeId.identifier "$ElementType")
          (some [convertType env objectType, convertType env indexType]) []
    | TypePayload.arrayType elementType =>
        FlowType.arrayTypeAnnot (convertType env elementType)
    | TypePayload.tupleType elements =>
        FlowType.tupleTypeAnnot (convertTypeList env elements)
    | TypePayload.functionType sig => convertFunctionType env sig
    | TypePayload.typeLiteral members => convertTypeLiteral env node members
    | TypePayload.typePredicate => unimplementedType env node payload.kindNameOf
    | TypePayload.constructorType => unimplementedType env node payload.kindNameOf
    | TypePayload.optionalType => unimplementedType env node payload.kindNameOf
    | TypePayload.restType => unimplementedType env node payload.kindNameOf
    | TypePayload.conditionalType => unimplementedType env node payload.kindNameOf
    | TypePayload.inferType => unimplementedType env node payload.kindNameOf
    | TypePayload.mappedType => unimplementedType env node payload.kindNameOf
    | TypePayload.templateLiteralType => unimplementedType env node payload.kindNameOf
    | TypePayload.templateLiteralTypeSpan => unimplementedType env node payload.kindNameOf
    | TypePayload.importType => unimplementedType env node payload.kindNameOf
    | TypePayload.namedTupleMember =>
        errorType env node ("unexpected type kind: " ++ payload.kindNameOf)
    | TypePayload.otherType k => errorType env node ("unexpected type kind: " ++ k)
termination_by 8 * sizeOf node + 7

/-- `convertTypeOperator`; `pos`/`endPos`/`operator`/`type` are the
components of the `ts.TypeOperatorNode`. -/
def convertTypeOperator (env : Env) (pos endPos : Nat) (operator : TypeOperatorToken)
    (type : TypeNode) : FlowType :=
  let node := TypeNode.mk pos endPos (TypePayload.typeOperator operator type)
  match operator with
  | TypeOperatorToken.keyOfKeyword =>
      FlowType.genericTypeAnnot (FlowTypeId.identifier "$Keys")
        (some [convertType env type]) []
  | TypeOperatorToken.uniqueKeyword =>
      unimplementedType env node ("type operator: " ++ operator.kindNameOf)
  | TypeOperatorToken.readonlyKeyword =>
      unimplementedType env node ("type operator: " ++ operator.kindNameOf)
  | TypeOperatorToken.otherOperatorToken k =>
      errorType env node ("unexpected type operator: " ++ k)
termination_by 8 * sizeOf type + 8

/-- `convertTypeReference`; `pos`/`endPos`/`typeName`/`typeArguments` are
the components of the `ts.TypeReferenceNode`.  A non-success outcome of
`convertTypeReferenceLike` surfaces as a placeholder at this type
position. -/
def convertTypeReference (env : Env) (pos endPos : Nat) (typeName : EntityName)
    (typeArguments : Option (List TypeNode)) : FlowType :=
  let node := TypeNode.mk pos endPos (TypePayload.typeReference typeName typeArguments)
  match convertTypeReferenceLike env typeName typeArguments with
  | ErrorOr.error d => errorType env node d
  | ErrorOr.unimplemented d => unimplementedType env node d
  | ErrorOr.success r => FlowType.genericTypeAnnot r.id r.typeParameters []
termination_by 8 * (sizeOf typeName + sizeOf typeArguments) + 6

/-- `convertTypeReferenceLike`: consult the Mapper on the resolved symbol;
a FixedName result replaces the reference wholesale by the fixed bare name;
a TypeReferenceMacro result runs the macro; otherwise fall through to the
structural reference conversion. -/
def convertTypeReferenceLike (env : Env) (typeName : EntityName)
    (typeArguments : Option (List TypeNode)) : ErrorOr RefShape :=
  let symbol := env.getSymbolAtLocation typeName
  match symbol.bind env.mapperGetSymbol with
  | some (MapResult.FixedName name) =>
      mkSuccess
        { id := FlowTypeId.identifier name,
          typeParameters := convertTypeArguments env typeName typeArguments }
  | some (MapResult.TypeReferenceMacro m) =>
      runTypeReferenceMacro env m typeName typeArguments
  | none =>
      mkSuccess
        { id := convertEntityNameAsType typeName,
          typeParameters := convertTypeArguments env typeName typeArguments }
termination_by 8 * (sizeOf typeName + sizeOf typeArguments) + 5

/-- Dispatch of `mapped.convert(converter, typeName, typeArguments)` to the
named rewrite TypeReferenceMacro function. -/
def runTypeReferenceMacro (env : Env) (m : MacroId) (typeName : EntityName)
    (typeArguments : Option (List TypeNode)) : ErrorOr RefShape :=
  match m with
  | MacroId.omitRule => convertOmit env typeArguments
  | MacroId.reactComponentRule => convertReactComponent env typeName typeArguments
  | MacroId.reactElementRule => convertReactElement env typeArguments
  | MacroId.jsxElementRule => convertJsxElement
termination_by 8 * (sizeOf typeName + sizeOf typeArguments) + 4

/-- `convertOmit` from `rewrite.ts` (the `Omit` rewrite TypeReferenceMacro);
`converter.convertType` appears as the direct recursive call. -/
def convertOmit (env : Env) (typeArguments : Option (List TypeNode)) : ErrorOr RefShape :=
  match typeArguments with
  | some (objectType :: keysType :: []) =>
      let subtrahend : FlowType :=
        if isStringLiteralTypeNode keysType then
          FlowType.objectTypeAnnot
            [ObjectTypeProperty.mk
              (ObjectTypeKey.stringLiteral (stringLiteralTextOf keysType))
              FlowType.mixedTypeAnnot false]
            [] [] true false
        else if isUnionOfStringLiterals keysType then
          FlowType.objectTypeAnnot
            ((unionTypesOf keysType).map (fun t =>
              ObjectTypeProperty.mk (ObjectTypeKey.stringLiteral (stringLiteralTextOf t))
                FlowType.mixedTypeAnnot false))
            [] [] true false
        else
          FlowType.objectTypeAnnot []
            [ObjectTypeIndexer.mk "key" (convertType env keysType)
              FlowType.mixedTypeAnnot]
            [] true false
      mkSuccess
        { id := FlowTypeId.identifier "$Diff",
          typeParameters := some [convertType env objectType, subtrahend] }
  | other =>
      mkError ("bad Omit: " ++ toString (tsArgCount other) ++ " arguments (expected 2)")
termination_by 8 * sizeOf typeArguments + 3

/-- `convertReactComponent` from `rewrite.ts` (the `React.Component` rewrite
TypeReferenceMacro). -/
def convertReactComponent (env : Env) (typeName : EntityName)
    (typeArguments : Option (List TypeNode)) : ErrorOr RefShape :=
  if tsArgCount typeArguments > 2 then
    mkError ("bad React.Component: " ++ toString (tsArgCount typeArguments) ++
      " arguments (expected 0-2)")
  else
    match typeArguments with
    | some (propsType :: rest) =>
        let args := convertType env propsType ::
          (match rest with
           | stateType :: _ => [convertType env stateType]
           | [] => [])
        mkSuccess
          { id := convertEntityNameAsType typeName, typeParameters := some args }
    | _ =>
        mkSuccess
          { id := convertEntityNameAsType typeName,
            typeParameters := some [FlowType.objectTypeAnnot [] [] [] false true] }
termination_by 8 * (sizeOf typeName + sizeOf typeArguments) + 3

/-- `convertReactElement` from `rewrite.ts` (the `React.ReactElement`
rewrite TypeReferenceMacro), with its three expansions by argument count. -/
def convertReactElement (env : Env) (typeArguments : Option (List TypeNode)) :
    ErrorOr RefShape :=
  if tsArgCount typeArguments > 2 then
    mkError ("bad React.Element: " ++ toString (tsArgCount typeArguments) ++
      " arguments (expected 0-2)")
  else
    let args : List FlowType :=
      match typeArguments with
      | some (_propsType :: typeType :: _) => [convertType env typeType]
      | some (propsType :: []) =>
          [FlowType.genericTypeAnnot (FlowTypeId.identifier "React$ComponentType")
            (some [convertType env propsType]) []]
      | _ =>
          [FlowType.genericTypeAnnot (FlowTypeId.identifier "React$ElementType")
            none []]
    mkSuccess
      { id := FlowTypeId.identifier "React$Element", typeParameters := some args }
termination_by 8 * sizeOf typeArguments + 3

/-- `convertTypeArguments`: present argument lists convert element-wise; an
absent list stays absent only when no declaration of the referenced symbol
has type parameters, and otherwise becomes an explicit empty list. -/
def convertTypeArguments (env : Env) (typeName : EntityName)
    (typeArguments : Option (List TypeNode)) : Option (List FlowType) :=
  match typeArguments with
  | some l => some (convertTypeList env l)
  | none =>
      let symbol := env.getSymbolAtLocation typeName
      if someOpt (symbol.bind env.symbolDeclarations) (fun hasTypeParams => hasTypeParams)
      then some []
      else none
termination_by 8 * (sizeOf typeName + sizeOf typeArguments) + 2

/-- `node.types.map(convertType)` and the other element-wise conversions,
as an explicit recursion. -/
def convertTypeList (env : Env) (nodes : List TypeNode) : List FlowType :=
  match nodes with
  | [] => []
  | t :: ts => convertType env t :: convertTypeList env ts
termination_by 8 * sizeOf nodes + 1

/-- `convertUnionType`; `types` is the `ts.UnionTypeNode`'s member list. -/
def convertUnionType (env : Env) (types : List TypeNode) : FlowType :=
  FlowType.unionTypeAnnot (convertTypeList env types)
termination_by 8 * sizeOf types + 6

/-- `convertFunctionType`, over the signature data shared by function types
and function/constructor/method declarations: parameters with missing types
default to `any` (an array of `any` for a rest parameter), and a missing
declared return type defaults to `any`. -/
def convertFunctionType (env : Env) (sig : FunctionSig) : FlowType :=
  match sig with
  | FunctionSig.mk typeParameters parameters type? =>
      let typeParams := convertTypeParameterDeclaration env typeParameters
      let pr := convertParams env parameters
      let resultType :=
        match type? with
        | some t => convertType env t
        | none => FlowType.anyTypeAnnot
      FlowType.functionTypeAnnot pr.1 resultType pr.2 typeParams
termination_by 8 * sizeOf sig + 7

/-- The parameter loop of `convertFunctionType`: non-rest parameters
accumulate in order; the first rest parameter becomes the rest param and
ends the loop (the source's `break`). -/
def convertParams (env : Env) (params : List Param) :
    List FunctionTypeParam × Option FunctionTypeParam :=
  match params with
  | [] => ([], none)
  | Param.mk name dotDotDot question type? :: rest =>
      let nm : Option FlowIdentifier := paramNameOut name
      if dotDotDot then
        ([], some (FunctionTypeParam.mk nm
          (match type? with
           | some t => convertType env t
           | none => FlowType.arrayTypeAnnot FlowType.anyTypeAnnot)
          false))
      else
        let pr := convertParams env rest
        (FunctionTypeParam.mk nm
          (match type? with
           | some t => convertType env t
           | none => FlowType.anyTypeAnnot)
          question :: pr.1, pr.2)
termination_by 8 * sizeOf params + 5

/-- `convertTypeParameterDeclaration`. -/
def convertTypeParameterDeclaration (env : Env)
    (params : Option (List TypeParamDecl)) : Option (List FlowTypeParameter) :=
  match params with
  | none => none
  | some l => some (convertTypeParamList env l)
termination_by 8 * sizeOf params + 5

/-- The element-wise body of `convertTypeParameterDeclaration`. -/
def convertTypeParamList (env : Env) (params : List TypeParamDecl) :
    List FlowTypeParameter :=
  match params with
  | [] => []
  | TypeParamDecl.mk name constraint default? :: rest =>
      FlowTypeParameter.mk name
        (match constraint with
         | none => none
         | some c => some (convertType env c))
        (match default? with
         | none => none
         | some d => some (convertType env d)) :: convertTypeParamList env rest
termination_by 8 * sizeOf params + 4

/-- `convertTypeLiteral`; `node` is the whole `ts.TypeLiteralNode` (quoted
in placeholders) and `members` its member list. -/
def convertTypeLiteral (env : Env) (node : TypeNode) (members : List TypeElement) :
    FlowType :=
  match convertTypeLiteralMembers env node members with
  | Sum.inl placeholder => placeholder
  | Sum.inr properties => FlowType.objectTypeAnnot properties [] [] true false
termination_by 8 * sizeOf members + 6

/-- The member loop of `convertTypeLiteral`: property signatures accumulate;
any other member kind makes the whole type literal a placeholder (the
source's early `return`). -/
def convertTypeLiteralMembers (env : Env) (node : TypeNode)
    (members : List TypeElement) : Sum FlowType (List ObjectTypeProperty) :=
  match members with
  | [] => Sum.inr []
  | member :: rest =>
      match member with
      | TypeElement.propertySignature name question type? =>
          let p := ObjectTypeProperty.mk (ObjectTypeKey.identifier name)
            (match type? with
             | some t => convertType env t
             | none => FlowType.anyTypeAnnot)
            question
          match convertTypeLiteralMembers env node rest with
          | Sum.inl placeholder => Sum.inl placeholder
          | Sum.inr ps => Sum.inr (p :: ps)
      | TypeElement.otherElement k =>
          Sum.inl (errorType env node ("unexpected TypeElement kind: " ++ k))
      | other =>
          Sum.inl (unimplementedType env node
            ("TypeElement kind: " ++ TypeElement.kindNameOf other))
termination_by 8 * sizeOf members + 5

end

/-!
The statement/declaration converter.  Functions that can throw (via
`convertName`) return `Except String`; the single try/catch boundary in the
source's `convertStatement` is the `match` in `convertStatement` below.
-/

/-- `ts.SyntaxKind` name of an expression, as used in diagnostics. -/
def Expression.kindNameOf : Expression → String
  | Expression.identifier _ => "Identifier"
  | Expression.propertyAccess _ _ => "PropertyAccessExpression"
  | Expression.otherExpression k => k

/-- `convertName` (local to `convertClassLikeDeclaration`): identifiers
convert, private identifiers are dropped (`null`), anything else throws
(`Except.error` here) with an "unimplemented: PropertyName kind" message. -/
def convertName (name : PropertyName) : Except String (Option ObjectTypeKey) :=
  match name with
  | PropertyName.identifier t => Except.ok (some (ObjectTypeKey.identifier t))
  | PropertyName.privateIdentifier _ => Except.ok none
  | PropertyName.otherName kindName =>
      Except.error ("unimplemented: PropertyName kind " ++ kindName)

/-- `convertImportDeclaration`; `importClause`/`moduleSpecifier` are the
components of the `ts.ImportDeclaration`. -/
def convertImportDeclaration (env : Env) (node : Statement)
    (importClause : Option ImportClause) (moduleSpecifier : String) : FlowStatement :=
  match importClause with
  | none => unimplementedStatement env node "ImportDeclaration with no import clause"
  | some ic =>
      if ic.hasModifiers then
        unimplementedStatement env node "ImportDeclaration with modifiers"
      else
        let defaultSpecifiers : List ImportSpecifierOut :=
          match ic.name with
          | some n => [ImportSpecifierOut.importDefaultSpecifier (convertIdentifier n none)]
          | none => []
        let namedSpecifiers : List ImportSpecifierOut :=
          match ic.namedBindings with
          | none => []
          | some (NamedBindings.namedImports elements) =>
              elements.map (fun binding =>
                let localSymbol :=
                  env.getSymbolAtLocation (EntityName.identifier binding.name)
                let importedSymbol := localSymbol.bind env.getImmediateAliasedSymbol
                -- A symbol declared only as a type (no value meaning) needs
                -- `type` on the Flow import.
                let isTypeOnly :=
                  match importedSymbol with
                  | some s => !env.symbolHasValueMeaning s
                  | none => false
                ImportSpecifierOut.importSpecifier
                  (convertIdentifier (binding.propertyName.getD binding.name) none)
                  (convertIdentifier binding.name none)
                  (if isTypeOnly then "type" else "value"))
          | some (NamedBindings.namespaceImport n) =>
              [ImportSpecifierOut.importNamespaceSpecifier (convertIdentifier n none)]
        FlowStatement.mk []
          (FlowStmtPayload.importDeclaration (defaultSpecifiers ++ namedSpecifiers)
            moduleSpecifier)

/-- `convertExportDeclaration`, over the components of the
`ts.ExportDeclaration`. -/
def convertExportDeclaration (env : Env) (node : Statement) (isTypeOnly : Bool)
    (exportClause : Option ExportClause) (moduleSpecifier : Option String)
    (hasAssertClause : Bool) : FlowStatement :=
  if hasAssertClause then
    unimplementedStatement env node
      "`export … from \x27foo\x27 assert \x7b … \x7d`"
  else
    match exportClause with
    | none =>
        match moduleSpecifier with
        | none => errorStatement env node "expected `export *` to have `from`"
        | some src => FlowStatement.mk [] (FlowStmtPayload.exportAllDeclaration src)
    | some (ExportClause.namespaceExport name) =>
        FlowStatement.mk []
          (FlowStmtPayload.exportNamedDeclaration none
            [ExportSpecifierOut.exportNamespaceSpecifier (convertIdentifier name none)]
            moduleSpecifier "value")
    | some (ExportClause.namedExports elements) =>
        FlowStatement.mk []
          (FlowStmtPayload.exportNamedDeclaration none
            (elements.map (fun spec =>
              ExportSpecifierOut.exportSpecifier
                (convertIdentifier (spec.propertyName.getD spec.name) none)
                (convertIdentifier spec.name none)
                (if spec.isTypeOnly then "type" else "value")))
            moduleSpecifier
            (if isTypeOnly then "type" else "value"))

/-- `convertExportAssignment`, over the components of the
`ts.ExportAssignment`. -/
def convertExportAssignment (env : Env) (node : Statement) (isExportEquals : Bool)
    (expression : Expression) : FlowStatement :=
  if isExportEquals then
    unimplementedStatement env node "\"export =\""
  else if !expression.isIdentifier then
    unimplementedStatement env node "\"export default\" with non-identifier"
  else
    match expression with
    | Expression.identifier t =>
        FlowStatement.mk []
          (FlowStmtPayload.exportDefaultDeclaration (convertIdentifier t none))
    | _ => FlowStatement.mk [] FlowStmtPayload.emptyStatement

/-- `convertVariableStatement`: the const/let/var keyword is reconstructed
from `declarationList.flags & (ts.NodeFlags.Const | ts.NodeFlags.Let)`
(`Const = 2`, `Let = 1`), with const mapped to `var`. -/
def convertVariableStatement (env : Env) (flags : Nat)
    (declarations : List VariableDeclarationIn) : FlowStatement :=
  let f := Nat.land flags 3
  FlowStatement.mk []
    (FlowStmtPayload.variableDeclaration
      (if f = 2 then "var" else if f = 1 then "let" else "var")
      (declarations.map (fun d =>
        VariableDeclaratorOut.mk
          (convertIdentifier d.name ((d.type?).map (convertType env))))))

/-- `convertTypeAliasDeclaration`. -/
def convertTypeAliasDeclaration (env : Env) (name : String)
    (typeParameters : Option (List TypeParamDecl)) (type : TypeNode) : FlowStatement :=
  FlowStatement.mk []
    (FlowStmtPayload.typeAlias (convertIdentifier name none)
      (convertTypeParameterDeclaration env typeParameters)
      (convertType env type))

/-- `convertFunctionDeclaration`: a named declaration forward-declares the
function; an unnamed one is unimplemented (if it is an `export default`) or
invalid. -/
def convertFunctionDeclaration (env : Env) (node : Statement) (name : Option String)
    (sig : FunctionSig) : FlowStatement :=
  match name with
  | none =>
      if hasModifier node Modifier.exportKeyword &&
          hasModifier node Modifier.defaultKeyword then
        unimplementedStatement env node "`export default function` with no name"
      else
        errorStatement env node "expected name on FunctionDeclaration"
  | some nm =>
      FlowStatement.mk []
        (FlowStmtPayload.declareFunction
          (convertIdentifier nm (some (convertFunctionType env sig))))

/-- The `extends` part of the heritage loop in
`convertClassLikeDeclaration`: each base must be a plain or qualified
(entity) name; anything else makes the whole declaration an invalid
placeholder (`Sum.inl`, the source's early `return`). -/
def convertHeritageTypes (env : Env) (node : Statement) (types : List HeritageType) :
    Sum FlowStatement (List InterfaceExtends) :=
  match types with
  | [] => Sum.inr []
  | base :: rest =>
      let expression := base.expression
      if !expression.isIdentifier && !expression.isPropertyAccessExpression then
        Sum.inl (errorStatement env node
          ("unexpected \x27extends\x27 base kind: " ++ expression.kindNameOf))
      else
        -- `isEntityNameOrEntityNameExpression` is `toEntityName.isSome`.
        match expression.toEntityName with
        | none => Sum.inl (errorStatement env node "\x27extends\x27 not an entity name")
        | some en =>
            match convertHeritageTypes env node rest with
            | Sum.inl s => Sum.inl s
            | Sum.inr exts =>
                Sum.inr (InterfaceExtends.mk (convertEntityNameAsType en)
                  (convertTypeArguments env en base.typeArguments) :: exts)

/-- The heritage-clause loop of `convertClassLikeDeclaration`: `extends`
clauses accumulate; an `implements` clause makes the whole declaration an
unimplemented placeholder. -/
def convertHeritage (env : Env) (node : Statement) (clauses : List HeritageClause) :
    Sum FlowStatement (List InterfaceExtends) :=
  match clauses with
  | [] => Sum.inr []
  | clause :: rest =>
      match clause.token with
      | HeritageToken.extendsKeyword =>
          match convertHeritageTypes env node clause.types with
          | Sum.inl s => Sum.inl s
          | Sum.inr exts =>
              match convertHeritage env node rest with
              | Sum.inl s => Sum.inl s
              | Sum.inr exts2 => Sum.inr (exts ++ exts2)
      | HeritageToken.implementsKeyword =>
          Sum.inl (unimplementedStatement env node "class \x27implements\x27")

/-- The member loop of `convertClassLikeDeclaration`: constructors and
(plain-named) properties and methods accumulate as object-type properties;
private-named members are dropped (`continue`); a bad property name throws
(`Except.error`, from `convertName`); the other member kinds make the whole
declaration a placeholder (`Sum.inl`, the source's early `return`). -/
def convertClassMembers (env : Env) (node : Statement) (members : List ClassMember) :
    Except String (Sum FlowStatement (List ObjectTypeProperty)) :=
  match members with
  | [] => Except.ok (Sum.inr [])
  | member :: rest =>
      match member with
      | ClassMember.constructorMember sig => do
          -- TODO in source: return type should be void, not any.
          let p := ObjectTypeProperty.mk (ObjectTypeKey.identifier "constructor")
            (convertFunctionType env sig) false
          match ← convertClassMembers env node rest with
          | Sum.inl s => pure (Sum.inl s)
          | Sum.inr ps => pure (Sum.inr (p :: ps))
      | ClassMember.propertyMember _ name question type? => do
          match ← convertName name with
          | none => convertClassMembers env node rest
          | some key =>
              let p := ObjectTypeProperty.mk key
                (match type? with
                 | some t => convertType env t
                 | none => FlowType.anyTypeAnnot)
                question
              match ← convertClassMembers env node rest with
              | Sum.inl s => pure (Sum.inl s)
              | Sum.inr ps => pure (Sum.inr (p :: ps))
      | ClassMember.methodMember _ name question sig => do
          match ← convertName name with
          | none => convertClassMembers env node rest
          | some key =>
              let p := ObjectTypeProperty.mk key (convertFunctionType env sig) question
              match ← convertClassMembers env node rest with
              | Sum.inl s => pure (Sum.inl s)
              | Sum.inr ps => pure (Sum.inr (p :: ps))
      | ClassMember.otherMember k =>
          Except.ok (Sum.inl (errorStatement env node
            ("unexpected ClassElement|TypeElement kind: " ++ k)))
      | other =>
          Except.ok (Sum.inl (unimplementedStatement env node
            ("ClassElement|TypeElement kind: " ++ ClassMember.kindNameOf other)))

/-- `convertClassLikeDeclaration`, over the components of the
`ts.ClassDeclaration | ts.InterfaceDeclaration` (`isInterface` records which
of the two source kinds it was). -/
def convertClassLikeDeclaration (env : Env) (node : Statement) (isInterface : Bool)
    (name : Option String) (typeParameters : Option (List TypeParamDecl))
    (heritageClauses : List HeritageClause) (members : List ClassMember) :
    Except String FlowStatement :=
  match name with
  | none =>
      if hasModifier node Modifier.exportKeyword &&
          hasModifier node Modifier.defaultKeyword then
        Except.ok (unimplementedStatement env node "`export default class` with no name")
      else
        Except.ok (errorStatement env node "anonymous class not in `export default`")
  | some nm => do
      let typeParams := convertTypeParameterDeclaration env typeParameters
      match convertHeritage env node heritageClauses with
      | Sum.inl s => pure s
      | Sum.inr extends_ =>
          match ← convertClassMembers env node members with
          | Sum.inl s => pure s
          | Sum.inr properties =>
              let body := FlowType.objectTypeAnnot properties [] [] false false
              if isInterface then
                pure (FlowStatement.mk []
                  (FlowStmtPayload.declareInterface (convertIdentifier nm none)
                    typeParams extends_ body))
              else
                pure (FlowStatement.mk []
                  (FlowStmtPayload.declareClass (convertIdentifier nm none)
                    typeParams extends_ body))

/-- `convertStatementExceptExport`: the per-kind dispatch over top-level
statements.  One group of kinds that may legally occur in `.d.ts` files maps
to unimplemented placeholders; the group of executable-statement kinds that
should not occur there also maps to unimplemented placeholders; statement
pieces and unknown kinds map to invalid placeholders. -/
def convertStatementExceptExport (env : Env) (node : Statement) :
    Except String FlowStatement :=
  match node.payload with
  | StmtPayload.importDeclaration importClause moduleSpecifier =>
      Except.ok (convertImportDeclaration env node importClause moduleSpecifier)
  | StmtPayload.exportDeclaration isTypeOnly exportClause moduleSpecifier hasAssert =>
      Except.ok (convertExportDeclaration env node isTypeOnly exportClause
        moduleSpecifier hasAssert)
  | StmtPayload.exportAssignment isExportEquals expression =>
      Except.ok (convertExportAssignment env node isExportEquals expression)
  | StmtPayload.variableStatement flags declarations =>
      Except.ok (convertVariableStatement env flags declarations)
  | StmtPayload.typeAliasDeclaration name typeParameters type =>
      Except.ok (convertTypeAliasDeclaration env name typeParameters type)
  | StmtPayload.functionDeclaration name sig =>
      Except.ok (convertFunctionDeclaration env node name sig)
  | StmtPayload.classDeclaration name typeParameters heritage members =>
      convertClassLikeDeclaration env node false name typeParameters heritage members
  | StmtPayload.interfaceDeclaration name typeParameters heritage members =>
      convertClassLikeDeclaration env node true name typeParameters heritage members
  | StmtPayload.block | StmtPayload.emptyStatement | StmtPayload.enumDeclaration
  | StmtPayload.moduleDeclaration | StmtPayload.namespaceExportDeclaration
  | StmtPayload.importEqualsDeclaration | StmtPayload.missingDeclaration =>
      -- These statements might actually appear in .d.ts files.
      Except.ok (unimplementedStatement env node node.payload.kindNameOf)
  | StmtPayload.expressionStatement | StmtPayload.ifStatement | StmtPayload.doStatement
  | StmtPayload.whileStatement | StmtPayload.forStatement | StmtPayload.forInStatement
  | StmtPayload.forOfStatement | StmtPayload.continueStatement
  | StmtPayload.breakStatement | StmtPayload.returnStatement
  | StmtPayload.withStatement | StmtPayload.switchStatement
  | StmtPayload.labeledStatement | StmtPayload.throwStatement
  | StmtPayload.tryStatement | StmtPayload.debuggerStatement | StmtPayload.caseBlock =>
      -- These should not appear in .d.ts files.
      Except.ok (unimplementedStatement env node node.payload.kindNameOf)
  | StmtPayload.variableDeclarationKind | StmtPayload.variableDeclarationListKind
  | StmtPayload.moduleBlock | StmtPayload.importClauseKind
  | StmtPayload.namespaceImportKind | StmtPayload.namedImportsKind
  | StmtPayload.importSpecifierKind | StmtPayload.namedExportsKind
  | StmtPayload.namespaceExportKind | StmtPayload.exportSpecifierKind =>
      -- Not actually statements, but pieces of statements.
      Except.ok (errorStatement env node
        ("unexpected statement kind: " ++ node.payload.kindNameOf))
  | StmtPayload.otherStatement k =>
      Except.ok (errorStatement env node ("unexpected statement kind: " ++ k))

/-- `modifyStatementAsExport`: the shape-dependent export post-processing of
a converted statement whose source carried an `export` modifier. -/
def modifyStatementAsExport (env : Env) (inner : FlowStatement) (node : Statement) :
    FlowStatement :=
  if isDeclareFunctionCheck inner || isDeclareClassCheck inner then
    FlowStatement.mk []
      (FlowStmtPayload.declareExportDeclaration
        (hasModifier node Modifier.defaultKeyword) inner)
  else if isDeclareInterfaceCheck inner then
    -- Convert the DeclareInterface to an InterfaceDeclaration wrapped in a
    -- named export, so the printer emits `export interface`.
    match inner.payload with
    | FlowStmtPayload.declareInterface id typeParams extends_ body =>
        FlowStatement.mk []
          (FlowStmtPayload.exportNamedDeclaration
            (some (FlowStatement.mk []
              (FlowStmtPayload.interfaceDeclaration id typeParams extends_ body)))
            [] none "value")
    | _ => inner  -- unreachable under `isDeclareInterfaceCheck`
  else if isDeclarationCheck inner then
    FlowStatement.mk []
      (FlowStmtPayload.exportNamedDeclaration (some inner) [] none "value")
  else if isEmptyStatementCheck inner then
    -- Presumably an error or unimplemented placeholder; leave it alone.
    inner
  else
    warningStatement env inner node
      "statement has \"export\", but conversion not a declaration"

/-- The body of the `try` block in `convertStatement`: convert the statement
by kind, then apply the export post-processing when the source statement
carried an `export` modifier. -/
def convertStatementInner (env : Env) (node : Statement) : Except String FlowStatement := do
  let inner ← convertStatementExceptExport env node
  if hasModifier node Modifier.exportKeyword then
    pure (modifyStatementAsExport env inner node)
  else
    pure inner

/-- `convertStatement`: total — the per-statement failure boundary catches
any error from the recursive descent and downgrades it to an invalid
placeholder carrying the error's message. -/
def convertStatement (env : Env) (node : Statement) : FlowStatement :=
  match convertStatementInner env node with
  | Except.ok s => s
  | Except.error msg => errorStatement env node ("internal error: " ++ msg)

/-- The fixed generated-file header comment. -/
def headerComment : String := " @flow\n * @generated by TsFlower\n "

/-- `convertSourceFile`: each top-level statement converts independently. -/
def convertSourceFile (env : Env) (statements : List Statement) : FlowFile :=
  FlowFile.mk
    (FlowProgram.mk [Comment.mk headerComment false false]
      (statements.map (convertStatement env)))
    env.fileName

/-!
Predicates and concrete inputs used to state and test the claims.
-/

/-- Whether a comment's text begins with the given diagnostic tag. -/
def commentHasTag (tag : String) (c : Comment) : Bool :=
  tag.toList.isPrefixOf c.value.toList

/-- Whether a target statement is an invalid (error-flagged) placeholder: an
empty statement carrying a "tsflower-error" diagnostic comment. -/
def isInvalidPlaceholder (s : FlowStatement) : Bool :=
  isEmptyStatementCheck s && s.comments.any (commentHasTag " tsflower-error:")

/-- Whether a target statement is an unimplemented placeholder: an empty
statement carrying a "tsflower-unimplemented" diagnostic comment. -/
def isUnimplementedPlaceholder (s : FlowStatement) : Bool :=
  isEmptyStatementCheck s && s.comments.any (commentHasTag " tsflower-unimplemented:")

/-- The executable-statement kinds that should never occur in
declaration-only files: the second unimplemented group of
`convertStatementExceptExport` (`ExpressionStatement` ... `CaseBlock`). -/
def isExecutableStatementKind : StmtPayload → Bool
  | StmtPayload.expressionStatement | StmtPayload.ifStatement
  | StmtPayload.doStatement | StmtPayload.whileStatement
  | StmtPayload.forStatement | StmtPayload.forInStatement
  | StmtPayload.forOfStatement | StmtPayload.continueStatement
  | StmtPayload.breakStatement | StmtPayload.returnStatement
  | StmtPayload.withStatement | StmtPayload.switchStatement
  | StmtPayload.labeledStatement | StmtPayload.throwStatement
  | StmtPayload.tryStatement | StmtPayload.debuggerStatement
  | StmtPayload.caseBlock => true
  | _ => false

/-- A class/interface member that is a property or method whose property
name is neither a plain identifier nor a private identifier (so that
`convertName` is reached and throws, naming the `ts.SyntaxKind` of the
name). -/
def badNamedMember (kindName : String) (m : ClassMember) : Prop :=
  (∃ isSignature question type?,
    m = ClassMember.propertyMember isSignature (PropertyName.otherName kindName)
      question type?) ∨
  (∃ isSignature question sig,
    m = ClassMember.methodMember isSignature (PropertyName.otherName kindName)
      question sig)

/-- An environment with no symbol information: every lookup misses.  Used as
the base for the concrete test environments below. -/
def emptyEnv : Env :=
  { fileText := ""
    fileName := "test.d.ts"
    getSymbolAtLocation := fun _ => none
    getImmediateAliasedSymbol := fun _ => none
    symbolHasValueMeaning := fun _ => false
    symbolDeclarations := fun _ => none
    mapperGetSymbol := fun _ => none }

/-- Environment for the C1 witness. -/
def c1Env : Env := { emptyEnv with fileText := "interface I" }

/-- Statement for the C1 witness: an interface with a computed-name
property, which makes member conversion throw. -/
def c1Stmt : Statement :=
  Statement.mk 0 11 []
    (StmtPayload.interfaceDeclaration (some "I") none []
      [ClassMember.propertyMember true (PropertyName.otherName "ComputedPropertyName")
        false none])

/-- Environment for the C2 theorems. -/
def c2Env : Env := { emptyEnv with fileText := "debugger;" }

/-- Statement for the C2 counterexample: a top-level `debugger;`. -/
def c2Stmt : Statement := Statement.mk 0 9 [] StmtPayload.debuggerStatement

/-- Statement for the C2 amended-claim witness: a top-level `return;`. -/
def c2ReturnStmt : Statement := Statement.mk 0 7 [] StmtPayload.returnStatement

/-- Converted-statement input for the C3 theorems: a statement shape that is
neither a declaration nor an empty placeholder in the ast-types
hierarchy. -/
def c3Inner : FlowStatement := FlowStatement.mk [] FlowStmtPayload.debuggerStatement

/-- Source statement for the C3 theorems. -/
def c3Stmt : Statement :=
  Statement.mk 0 9 [Modifier.exportKeyword] StmtPayload.debuggerStatement

/-- Environment for the C3 theorems. -/
def c3Env : Env := { emptyEnv with fileText := "debugger;" }

/-- Environment for the C4 witness: the resolved symbol maps through the
`Readonly` entry of `defaultLibraryRewrites`. -/
def c4Env : Env :=
  { emptyEnv with
    fileText := "type X = Readonly<number>;"
    getSymbolAtLocation := fun _ => some 1
    mapperGetSymbol := fun _ =>
      (defaultLibraryRewrites.lookupType "Readonly").map TypeRewrite.toMapResult }

/-- Environment for the C5 witness: the resolved symbol maps through the
`Omit` entry of `defaultLibraryRewrites`. -/
def c5Env : Env :=
  { emptyEnv with
    fileText := "type X = Omit<Y>;"
    getSymbolAtLocation := fun _ => some 2
    mapperGetSymbol := fun _ =>
      (defaultLibraryRewrites.lookupType "Omit").map TypeRewrite.toMapResult }

/-- Environment for the C6 witness: the referenced symbol has one
declaration with type parameters (all defaulted, in source terms). -/
def c6Env : Env :=
  { emptyEnv with
    getSymbolAtLocation := fun _ => some 3
    symbolDeclarations := fun _ => some [true] }

/-- Environment for the C6 witness, second half: the referenced symbol's
declaration has no type parameters. -/
def c6EnvNoParams : Env :=
  { emptyEnv with
    getSymbolAtLocation := fun _ => some 4
    symbolDeclarations := fun _ => some [false] }

/-- Environment for the C9 witness. -/
def c9Env : Env := { emptyEnv with fileText := "import \x27foo\x27;" }

/-- Statement for the C9 witness: `import 'foo';`. -/
def c9Stmt : Statement :=
  Statement.mk 0 13 [] (StmtPayload.importDeclaration none "foo")

/-- Environment for the C10 theorems. -/
def c10Env : Env := { emptyEnv with fileText := "class C" }

/-- Statement for the C10 counterexample: a class whose only member is a
get-accessor with a computed property name. -/
def c10Stmt : Statement :=
  Statement.mk 0 7 []
    (StmtPayload.classDeclaration (some "C") none []
      [ClassMember.getAccessor (PropertyName.otherName "ComputedPropertyName")
        (FunctionSig.mk none [] none)])

/-- Statement for the C10 amended-claim witness: an interface whose only
member is a property with a string-literal name. -/
def c10wStmt : Statement :=
  Statement.mk 0 11 []
    (StmtPayload.interfaceDeclaration (some "I") none []
      [ClassMember.propertyMember true (PropertyName.otherName "StringLiteral")
        false none])

/-!
The claims, settled.
-/

/-- Helper: processing a member-list prefix that converts cleanly, followed
by a failing tail, fails with the tail's error. -/
theorem convertClassMembers_append_error (env : Env) (node : Statement)
    (front tail : List ClassMember) (ps : List ObjectTypeProperty) (msg : String)
    (hfront : convertClassMembers env node front = Except.ok (Sum.inr ps))
    (htail : convertClassMembers env node tail = Except.error msg) :
    convertClassMembers env node (front ++ tail) = Except.error msg := by
  induction front generalizing ps with
  | nil => simpa using htail
  | cons m rest ih =>
      simp only [List.cons_append]
      cases m with
      | constructorMember sig =>
          simp only [convertClassMembers, Except.bind, bind, pure, Except.pure] at hfront ⊢
          cases hrest : convertClassMembers env node rest with
          | error e => simp [hrest] at hfront
          | ok r =>
              cases r with
              | inl s => simp [hrest] at hfront
              | inr qs => simp [ih qs hrest]
      | propertyMember isSig name question ty =>
          cases name with
          | identifier t =>
              simp only [convertClassMembers, convertName, Except.bind, bind, pure,
                Except.pure] at hfront ⊢
              cases hrest : convertClassMembers env node rest with
              | error e => simp [hrest] at hfront
              | ok r =>
                  cases r with
                  | inl s => simp [hrest] at hfront
                  | inr qs => simp [ih qs hrest]
          | privateIdentifier t =>
              simp only [convertClassMembers, convertName, Except.bind, bind, pure,
                Except.pure] at hfront ⊢
              exact ih ps hfront
          | otherName k =>
              simp [convertClassMembers, convertName, Except.bind, bind] at hfront
      | methodMember isSig name question sig =>
          cases name with
          | identifier t =>
              simp only [convertClassMembers, convertName, Except.bind, bind, pure,
                Except.pure] at hfront ⊢
              cases hrest : convertClassMembers env node rest with
              | error e => simp [hrest] at hfront
              | ok r =>
                  cases r with
                  | inl s => simp [hrest] at hfront
                  | inr qs => simp [ih qs hrest]
          | privateIdentifier t =>
              simp only [convertClassMembers, convertName, Except.bind, bind, pure,
                Except.pure] at hfront ⊢
              exact ih ps hfront
          | otherName k =>
              simp [convertClassMembers, convertName, Except.bind, bind] at hfront
      | callSignature => simp [convertClassMembers] at hfront
      | constructSignature => simp [convertClassMembers] at hfront
      | semicolonClassElement => simp [convertClassMembers] at hfront
      | getAccessor nm sg => simp [convertClassMembers] at hfront
      | setAccessor nm sg => simp [convertClassMembers] at hfront
      | indexSignature => simp [convertClassMembers] at hfront
      | classStaticBlockDeclaration => simp [convertClassMembers] at hfront
      | otherMember k => simp [convertClassMembers] at hfront

/-- Helper: member conversion throws as soon as it reaches a property or
method member whose name is neither a plain nor a private identifier. -/
theorem convertClassMembers_bad_name (env : Env) (node : Statement) (m : ClassMember)
    (back : List ClassMember) (kindName : String)
    (hbad : badNamedMember kindName m) :
    convertClassMembers env node (m :: back) =
      Except.error ("unimplemented: PropertyName kind " ++ kindName) := by
  rcases hbad with ⟨isSig, question, ty, rfl⟩ | ⟨isSig, question, sig, rfl⟩ <;>
    simp [convertClassMembers, convertName, Except.bind, bind]

/-- Claim C1: `convertStatement` is total, and the per-statement failure
boundary catches any error of the recursive descent exactly there,
downgrading it to an invalid placeholder — an empty statement whose
comments carry a `tsflower-error: internal error: <message>` diagnostic and
the verbatim quotation of the statement's source span — while sibling
statements convert independently (the file body is a per-statement map). -/
theorem c1_statement_failure_boundary (env : Env) (statements : List Statement)
    (node : Statement) (msg : String)
    (herr : convertStatementInner env node = Except.error msg) :
    convertStatement env node = errorStatement env node ("internal error: " ++ msg) ∧
    errorStatement env node ("internal error: " ++ msg) =
      FlowStatement.mk
        [Comment.mk (" tsflower-error: " ++ ("internal error: " ++ msg) ++ " ") true false,
         Comment.mk (" " ++ sliceText env.fileText node.pos node.endPos ++ " ") false true]
        FlowStmtPayload.emptyStatement ∧
    (convertSourceFile env statements).program.body =
      statements.map (convertStatement env) := by
  refine ⟨?_, rfl, rfl⟩
  simp [convertStatement, herr]

/-- Witness for C1: an interface with a computed-name property throws inside
member conversion; the boundary yields the invalid placeholder and the file
body is still the per-statement map. -/
theorem c1_statement_failure_boundary_witness :
    convertStatementInner c1Env c1Stmt =
      Except.error "unimplemented: PropertyName kind ComputedPropertyName" ∧
    convertStatement c1Env c1Stmt =
      errorStatement c1Env c1Stmt
        ("internal error: " ++ "unimplemented: PropertyName kind ComputedPropertyName") ∧
    (convertSourceFile c1Env [c1Stmt]).program.body =
      [c1Stmt].map (convertStatement c1Env) := by
  have h : convertStatementInner c1Env c1Stmt =
      Except.error "unimplemented: PropertyName kind ComputedPropertyName" := by
    simp [convertStatementInner, convertStatementExceptExport,
      convertClassLikeDeclaration, convertHeritage, convertClassMembers, convertName,
      convertTypeParameterDeclaration, c1Stmt, c1Env, emptyEnv,
      Except.bind, bind, pure, Except.pure]
  have hc := c1_statement_failure_boundary c1Env [c1Stmt] c1Stmt
    "unimplemented: PropertyName kind ComputedPropertyName" h
  exact ⟨h, hc.1, hc.2.2⟩

set_option maxRecDepth 4000 in
/-- Counterexample for C2: a `DebuggerStatement` — one of the
executable-statement kinds — converts to an *unimplemented* placeholder
(diagnostic "tsflower-unimplemented"), not to the structurally-invalid
("tsflower-error") placeholder the claim asserts. -/
theorem c2_counterexample :
    convertStatement c2Env c2Stmt =
      unimplementedStatement c2Env c2Stmt "DebuggerStatement" ∧
    isInvalidPlaceholder (convertStatement c2Env c2Stmt) = false ∧
    isUnimplementedPlaceholder (convertStatement c2Env c2Stmt) = true := by
  have h : convertStatement c2Env c2Stmt =
      unimplementedStatement c2Env c2Stmt "DebuggerStatement" := rfl
  refine ⟨h, ?_, ?_⟩ <;> rw [h] <;> decide

/-- Claim C2 as amended: every top-level statement of an
executable-statement kind (ExpressionStatement ... CaseBlock) converts to an
*unimplemented* placeholder naming the kind — the same placeholder shape
used for declaration kinds with no translation, not an error-flagged one. -/
theorem c2_executable_kind_unimplemented (env : Env) (node : Statement)
    (h : isExecutableStatementKind node.payload = true) :
    convertStatement env node =
      unimplementedStatement env node node.payload.kindNameOf := by
  obtain ⟨pos, endPos, mods, payload⟩ := node
  simp only [Statement.payload] at h
  cases payload <;>
    simp_all [isExecutableStatementKind, convertStatement, convertStatementInner,
      convertStatementExceptExport, modifyStatementAsExport, isDeclareFunctionCheck,
      isDeclareClassCheck, isDeclareInterfaceCheck, isDeclarationCheck,
      isEmptyStatementCheck, unimplementedStatement, StmtPayload.kindNameOf,
      FlowStatement.payload, Except.bind, bind, pure, Except.pure]

/-- Witness for the amended C2: a `ReturnStatement` converts to the
unimplemented placeholder naming its kind. -/
theorem c2_executable_kind_unimplemented_witness :
    isExecutableStatementKind StmtPayload.returnStatement = true ∧
    convertStatement c2Env c2ReturnStmt =
      unimplementedStatement c2Env c2ReturnStmt "ReturnStatement" :=
  ⟨by decide, c2_executable_kind_unimplemented c2Env c2ReturnStmt (by decide)⟩

/-- Counterexample for C3: when the converted result of an export-modified
statement is neither a forward declaration, nor an interface declaration,
nor any declaration-shaped node, nor an empty placeholder, the converter
does *not* produce an unimplemented placeholder statement: it returns the
converted node itself, annotated with a "tsflower-warning" comment. -/
theorem c3_counterexample :
    modifyStatementAsExport c3Env c3Inner c3Stmt =
      warningStatement c3Env c3Inner c3Stmt
        "statement has \"export\", but conversion not a declaration" ∧
    isUnimplementedPlaceholder (modifyStatementAsExport c3Env c3Inner c3Stmt) = false ∧
    (modifyStatementAsExport c3Env c3Inner c3Stmt).payload =
      FlowStmtPayload.debuggerStatement :=
  ⟨rfl, by decide, rfl⟩

/-- Claim C3 as amended: when the converted result of an export-modified
statement is neither a function- or class-style forward declaration, nor an
interface-style declaration, nor any other declaration-shaped node, nor an
empty placeholder statement, the converter returns the converted node with
its comments replaced by a leading
`tsflower-warning: statement has "export", but conversion not a declaration`
diagnostic and a verbatim quotation of the original statement — a
warning-annotated node, not an unimplemented placeholder. -/
theorem c3_export_nondeclaration_warning (env : Env) (inner : FlowStatement)
    (node : Statement)
    (h1 : isDeclareFunctionCheck inner = false)
    (h2 : isDeclareClassCheck inner = false)
    (h3 : isDeclareInterfaceCheck inner = false)
    (h4 : isDeclarationCheck inner = false)
    (h5 : isEmptyStatementCheck inner = false) :
    modifyStatementAsExport env inner node =
      FlowStatement.mk
        [Comment.mk
          " tsflower-warning: statement has \"export\", but conversion not a declaration "
          true false,
         quotedStatement env node]
        inner.payload := by
  simp only [modifyStatementAsExport, h1, h2, h3, h4, h5, Bool.or_self,
    Bool.false_eq_true, if_false]
  rfl

/-- Witness for the amended C3: applying the export post-processing to a
non-declaration, non-placeholder converted node yields the
warning-annotated node. -/
theorem c3_export_nondeclaration_warning_witness :
    modifyStatementAsExport c3Env c3Inner c3Stmt =
      FlowStatement.mk
        [Comment.mk
          " tsflower-warning: statement has \"export\", but conversion not a declaration "
          true false,
         quotedStatement c3Env c3Stmt]
        FlowStmtPayload.debuggerStatement :=
  c3_export_nondeclaration_warning c3Env c3Inner c3Stmt rfl rfl rfl rfl rfl

/-- Claim C4: a named type reference whose resolved symbol maps to a
FixedName rule converts to a reference whose identifier is exactly the
rule's fixed bare name, with the reference's type arguments recursively
converted — never the structural conversion of the original (possibly
qualified) name. -/
theorem c4_fixed_name_rewrite (env : Env) (pos endPos : Nat) (typeName : EntityName)
    (typeArguments : Option (List TypeNode)) (s : Symbol) (name : String)
    (hsym : env.getSymbolAtLocation typeName = some s)
    (hmap : env.mapperGetSymbol s = some (MapResult.FixedName name)) :
    convertTypeReferenceLike env typeName typeArguments =
      ErrorOr.success (RefShape.mk (FlowTypeId.identifier name)
        (convertTypeArguments env typeName typeArguments)) ∧
    convertType env
        (TypeNode.mk pos endPos (TypePayload.typeReference typeName typeArguments)) =
      FlowType.genericTypeAnnot (FlowTypeId.identifier name)
        (convertTypeArguments env typeName typeArguments) [] ∧
    (∀ args, typeArguments = some args →
      convertTypeArguments env typeName typeArguments =
        some (convertTypeList env args)) := by
  have h1 : convertTypeReferenceLike env typeName typeArguments =
      ErrorOr.success (RefShape.mk (FlowTypeId.identifier name)
        (convertTypeArguments env typeName typeArguments)) := by
    simp [convertTypeReferenceLike, hsym, hmap, Option.bind, mkSuccess]
  refine ⟨h1, ?_, ?_⟩
  · simp [convertType, convertTypeReference, h1]
  · intro args hargs
    subst hargs
    simp [convertTypeArguments]

/-- Witness for C4: `Readonly<number>` under the default-library table
converts to `$ReadOnly<number>`. -/
theorem c4_fixed_name_rewrite_witness :
    convertType c4Env
        (TypeNode.mk 9 25 (TypePayload.typeReference (EntityName.identifier "Readonly")
          (some [TypeNode.mk 18 24 TypePayload.numberKeyword]))) =
      FlowType.genericTypeAnnot (FlowTypeId.identifier "$ReadOnly")
        (convertTypeArguments c4Env (EntityName.identifier "Readonly")
          (some [TypeNode.mk 18 24 TypePayload.numberKeyword])) [] :=
  (c4_fixed_name_rewrite c4Env 9 25 (EntityName.identifier "Readonly")
    (some [TypeNode.mk 18 24 TypePayload.numberKeyword]) 1 "$ReadOnly"
    rfl rfl).2.1

/-- Claim C5: the `Omit` rewrite TypeReferenceMacro, invoked with an
argument count other than 2 (an absent list counting as 0), returns an
Error outcome "bad Omit: <n> arguments (expected 2)" rather than throwing,
and the enclosing type-reference conversion surfaces it as an invalid
placeholder type: a `$FlowFixMe` reference carrying a "tsflower-error"
comment at the enclosing type position. -/
theorem c5_omit_argument_count (env : Env) (pos endPos : Nat) (typeName : EntityName)
    (typeArguments : Option (List TypeNode)) (s : Symbol)
    (hsym : env.getSymbolAtLocation typeName = some s)
    (hmap : env.mapperGetSymbol s =
      some (MapResult.TypeReferenceMacro MacroId.omitRule))
    (hn : tsArgCount typeArguments ≠ 2) :
    convertOmit env typeArguments =
      ErrorOr.error ("bad Omit: " ++ toString (tsArgCount typeArguments) ++
        " arguments (expected 2)") ∧
    convertType env
        (TypeNode.mk pos endPos (TypePayload.typeReference typeName typeArguments)) =
      errorType env
        (TypeNode.mk pos endPos (TypePayload.typeReference typeName typeArguments))
        ("bad Omit: " ++ toString (tsArgCount typeArguments) ++
          " arguments (expected 2)") ∧
    errorType env
        (TypeNode.mk pos endPos (TypePayload.typeReference typeName typeArguments))
        ("bad Omit: " ++ toString (tsArgCount typeArguments) ++
          " arguments (expected 2)") =
      FlowType.genericTypeAnnot (FlowTypeId.identifier "$FlowFixMe") none
        [quotedInlineNode env
          (TypeNode.mk pos endPos (TypePayload.typeReference typeName typeArguments)),
         Comment.mk (" tsflower-error: " ++
           ("bad Omit: " ++ toString (tsArgCount typeArguments) ++
             " arguments (expected 2)") ++ " ") false true] := by
  have h1 : convertOmit env typeArguments =
      ErrorOr.error ("bad Omit: " ++ toString (tsArgCount typeArguments) ++
        " arguments (expected 2)") := by
    match typeArguments with
    | none => simp [convertOmit, mkError]
    | some [] => simp [convertOmit, mkError]
    | some [a] => simp [convertOmit, mkError]
    | some (a :: b :: []) => simp [tsArgCount] at hn
    | some (a :: b :: c :: rest2) => simp [convertOmit, mkError]
  refine ⟨h1, ?_, rfl⟩
  simp [convertType, convertTypeReference, convertTypeReferenceLike,
    runTypeReferenceMacro, hsym, hmap, Option.bind, h1]

/-- Witness for C5: `Omit<Y>` (one argument) becomes an Error outcome and a
`$FlowFixMe` placeholder at the reference position. -/
theorem c5_omit_argument_count_witness :
    convertOmit c5Env (some [TypeNode.mk 14 15
        (TypePayload.typeReference (EntityName.identifier "Y") none)]) =
      ErrorOr.error "bad Omit: 1 arguments (expected 2)" ∧
    convertType c5Env
        (TypeNode.mk 9 16 (TypePayload.typeReference (EntityName.identifier "Omit")
          (some [TypeNode.mk 14 15
            (TypePayload.typeReference (EntityName.identifier "Y") none)]))) =
      errorType c5Env
        (TypeNode.mk 9 16 (TypePayload.typeReference (EntityName.identifier "Omit")
          (some [TypeNode.mk 14 15
            (TypePayload.typeReference (EntityName.identifier "Y") none)])))
        "bad Omit: 1 arguments (expected 2)" := by
  have h := c5_omit_argument_count c5Env 9 16 (EntityName.identifier "Omit")
    (some [TypeNode.mk 14 15
      (TypePayload.typeReference (EntityName.identifier "Y") none)]) 2
    rfl rfl (by decide)
  exact ⟨h.1, h.2.1⟩

/-- Claim C6: with no type-argument list written in source, the target gets
an explicit empty argument list exactly when some declaration of the
referenced symbol declares type parameters; when none does, the omitted
list stays omitted (null). -/
theorem c6_type_argument_elision (env : Env) (typeName : EntityName)
    (s : Symbol) (decls : List Bool)
    (hsym : env.getSymbolAtLocation typeName = some s)
    (hdecls : env.symbolDeclarations s = some decls) :
    (decls.any (fun hasTypeParams => hasTypeParams) = true →
      convertTypeArguments env typeName none = some []) ∧
    (decls.any (fun hasTypeParams => hasTypeParams) = false →
      convertTypeArguments env typeName none = none) := by
  constructor <;> intro h <;>
    simp [convertTypeArguments, someOpt, hsym, hdecls, Option.bind, h]

/-- Witness for C6: an omitted argument list becomes an explicit empty list
when the declaration has type parameters, and stays omitted when it has
none. -/
theorem c6_type_argument_elision_witness :
    convertTypeArguments c6Env (EntityName.identifier "A") none = some [] ∧
    convertTypeArguments c6EnvNoParams (EntityName.identifier "B") none = none :=
  ⟨(c6_type_argument_elision c6Env (EntityName.identifier "A") 3 [true]
      rfl rfl).1 (by decide),
   (c6_type_argument_elision c6EnvNoParams (EntityName.identifier "B") 4 [false]
      rfl rfl).2 (by decide)⟩

/-- Claim C7: Every placeholder statement (unimplemented or invalid) carries,
as its second comment, the original statement's source span quoted verbatim
(between the comment's single framing spaces stands exactly
`sourceFile.text.slice(node.pos, node.end)`, byte for byte), alongside the
single-line `tsflower-unimplemented:`/`tsflower-error:` diagnostic. -/
theorem c7_placeholder_quotes_source_span (env : Env) (node : Statement)
    (description : String) :
    unimplementedStatement env node description =
      FlowStatement.mk
        [Comment.mk (" tsflower-unimplemented: " ++ description ++ " ") true false,
         Comment.mk (" " ++ sliceText env.fileText node.pos node.endPos ++ " ") false true]
        FlowStmtPayload.emptyStatement ∧
    errorStatement env node description =
      FlowStatement.mk
        [Comment.mk (" tsflower-error: " ++ description ++ " ") true false,
         Comment.mk (" " ++ sliceText env.fileText node.pos node.endPos ++ " ") false true]
        FlowStmtPayload.emptyStatement ∧
    sliceText env.fileText node.pos node.endPos =
      String.mk ((env.fileText.toList.drop node.pos).take (node.endPos - node.pos)) :=
  ⟨rfl, rfl, rfl⟩

/-- Claim C8: In function-type conversion, a rest parameter with no explicit
type converts with type `any[]` (and ends the parameter loop); a non-rest
parameter with no explicit type converts with type `any`; and a signature
with no declared return type gets return type `any`. -/
theorem c8_parameter_type_defaults (env : Env) (nm : ParamName) (question : Bool)
    (rest : List Param) (typeParameters : Option (List TypeParamDecl))
    (params : List Param) :
    convertParams env (Param.mk nm true question none :: rest) =
      ([], some (FunctionTypeParam.mk (paramNameOut nm)
        (FlowType.arrayTypeAnnot FlowType.anyTypeAnnot) false)) ∧
    convertParams env (Param.mk nm false question none :: rest) =
      (FunctionTypeParam.mk (paramNameOut nm) FlowType.anyTypeAnnot question ::
        (convertParams env rest).1, (convertParams env rest).2) ∧
    convertFunctionType env (FunctionSig.mk typeParameters params none) =
      FlowType.functionTypeAnnot (convertParams env params).1 FlowType.anyTypeAnnot
        (convertParams env params).2
        (convertTypeParameterDeclaration env typeParameters) := by
  refine ⟨?_, ?_, ?_⟩
  · simp [convertParams]
  · simp [convertParams]
  · simp [convertFunctionType]

/-- Claim C9: an import declaration with no import clause at all (a bare
side-effect import) converts to an unimplemented placeholder with the
diagnostic "ImportDeclaration with no import clause", not to a target
ImportDeclaration node. -/
theorem c9_bare_import_unimplemented (env : Env) (node : Statement)
    (moduleSpecifier : String)
    (h : node.payload = StmtPayload.importDeclaration none moduleSpecifier) :
    convertStatement env node =
      unimplementedStatement env node "ImportDeclaration with no import clause" ∧
    (convertStatement env node).payload = FlowStmtPayload.emptyStatement := by
  have h1 : convertStatement env node =
      unimplementedStatement env node "ImportDeclaration with no import clause" := by
    obtain ⟨pos, endPos, mods, payload⟩ := node
    simp only [Statement.payload] at h
    subst h
    simp [convertStatement, convertStatementInner, convertStatementExceptExport,
      convertImportDeclaration, modifyStatementAsExport, isDeclareFunctionCheck,
      isDeclareClassCheck, isDeclareInterfaceCheck, isDeclarationCheck,
      isEmptyStatementCheck, unimplementedStatement, FlowStatement.payload,
      Except.bind, bind, pure, Except.pure]
  exact ⟨h1, by rw [h1]; rfl⟩

/-- Witness for C9: `import 'foo';` converts to the unimplemented
placeholder. -/
theorem c9_bare_import_unimplemented_witness :
    convertStatement c9Env c9Stmt =
      unimplementedStatement c9Env c9Stmt "ImportDeclaration with no import clause" ∧
    (convertStatement c9Env c9Stmt).payload = FlowStmtPayload.emptyStatement :=
  c9_bare_import_unimplemented c9Env c9Stmt "foo" rfl

/-- Counterexample for C10: a class containing a member whose property name
is not a plain or private identifier — a get-accessor with a computed name —
does *not* become an invalid placeholder via a thrown internal error: the
member's kind is handled before its name is examined, and the declaration
becomes an *unimplemented* placeholder naming the member kind. -/
theorem c10_counterexample :
    convertStatement c10Env c10Stmt =
      unimplementedStatement c10Env c10Stmt "ClassElement|TypeElement kind: GetAccessor" ∧
    isInvalidPlaceholder (convertStatement c10Env c10Stmt) = false := by
  have h : convertStatement c10Env c10Stmt =
      unimplementedStatement c10Env c10Stmt
        "ClassElement|TypeElement kind: GetAccessor" := by
    simp [convertStatement, convertStatementInner, convertStatementExceptExport,
      convertClassLikeDeclaration, convertHeritage, convertClassMembers,
      convertTypeParameterDeclaration, ClassMember.kindNameOf, hasModifier,
      c10Stmt, c10Env, emptyEnv, Except.bind, bind, pure, Except.pure]
  exact ⟨h, by rw [h]; decide⟩

/-- Claim C10 as amended: for a named class or interface declaration whose
heritage clauses convert cleanly and whose member conversion reaches a
*property or method* member whose property name is neither a plain
identifier nor a private identifier (all earlier members converting
cleanly), member conversion throws, and the statement-level failure
boundary replaces the entire declaration by a single invalid placeholder
with diagnostic `internal error: unimplemented: PropertyName kind <kind>`. -/
theorem c10_bad_property_name_error (env : Env) (node : Statement) (nm : String)
    (tps : Option (List TypeParamDecl)) (clauses : List HeritageClause)
    (front : List ClassMember) (m : ClassMember) (back : List ClassMember)
    (kindName : String) (ext : List InterfaceExtends) (ps : List ObjectTypeProperty)
    (hbad : badNamedMember kindName m)
    (hpayload :
      node.payload =
        StmtPayload.interfaceDeclaration (some nm) tps clauses (front ++ m :: back) ∨
      node.payload =
        StmtPayload.classDeclaration (some nm) tps clauses (front ++ m :: back))
    (hheritage : convertHeritage env node clauses = Sum.inr ext)
    (hfront : convertClassMembers env node front = Except.ok (Sum.inr ps)) :
    convertStatementInner env node =
      Except.error ("unimplemented: PropertyName kind " ++ kindName) ∧
    convertStatement env node =
      errorStatement env node
        ("internal error: " ++ ("unimplemented: PropertyName kind " ++ kindName)) := by
  have hmem : convertClassMembers env node (front ++ m :: back) =
      Except.error ("unimplemented: PropertyName kind " ++ kindName) :=
    convertClassMembers_append_error env node front (m :: back) ps _ hfront
      (convertClassMembers_bad_name env node m back kindName hbad)
  have hinner : convertStatementInner env node =
      Except.error ("unimplemented: PropertyName kind " ++ kindName) := by
    obtain ⟨pos, endPos, mods, payload⟩ := node
    simp only [Statement.payload] at hpayload
    rcases hpayload with hp | hp <;> subst hp <;>
      simp [convertStatementInner, convertStatementExceptExport,
        convertClassLikeDeclaration, hheritage, hmem, Except.bind, bind, pure,
        Except.pure]
  exact ⟨hinner, by simp [convertStatement, hinner]⟩

/-- Witness for the amended C10: an interface whose only member is a
property with a string-literal name becomes a single invalid placeholder
with the "internal error: unimplemented: PropertyName kind StringLiteral"
diagnostic. -/
theorem c10_bad_property_name_error_witness :
    convertStatement c10Env c10wStmt =
      errorStatement c10Env c10wStmt
        ("internal error: " ++ ("unimplemented: PropertyName kind " ++ "StringLiteral")) :=
  (c10_bad_property_name_error c10Env c10wStmt "I" none [] []
    (ClassMember.propertyMember true (PropertyName.otherName "StringLiteral") false none)
    [] "StringLiteral" [] []
    (Or.inl ⟨true, false, none, rfl⟩) (Or.inl rfl) rfl rfl).2

end TsFlower
